import Mathlib

/-!
Verification development for the finmod repository: a shallow embedding in
Lean 4 of the deterministic financial modeling core
(`src/lib/financial-modeling-engine.ts` and the template engine) over exact
rationals, together with theorems settling the specification claims.

Embedding conventions:
* JS `number` arithmetic is embedded as `ℚ` (the concrete inputs used in the
  theorems keep every source computation exact, so the `ℚ` value coincides
  with the IEEE double the source computes up to rounding; claims about
  NaN/Infinity use the dedicated `JsNum` model below which represents the
  IEEE special values exactly).
* JS arrays of length `periods` holding per-period values are embedded as
  functions `ℕ → ℚ` (the natural unrolling of the generating loop) together
  with the `periods` field; claims quantify over indices `t < periods`.
* Fields of the source records that are never read by the embedded code
  paths (presentation strings, dates, ids) are omitted.
-/

namespace Finmod

/-- `src/types/index.ts` `CostStructure.costOfGoodsSold` and the
`OperatingExpenses` entries: `{ percentage, fixedCosts }`. -/
structure ExpenseConfig where
  percentage : ℚ
  fixedCosts : ℚ
  deriving DecidableEq

/-- `src/types/index.ts` `CostStructure` (the `grossMargin` field is never
read by the engine and is omitted). -/
structure CostStructure where
  costOfGoodsSold : ExpenseConfig
  deriving DecidableEq

/-- `src/types/index.ts` `OperatingExpenses`. -/
structure OperatingExpenses where
  salesAndMarketing : ExpenseConfig
  researchAndDevelopment : ExpenseConfig
  generalAndAdministrative : ExpenseConfig
  deriving DecidableEq

/-- `src/types/index.ts` `WorkingCapital`. -/
structure WorkingCapital where
  daysSalesOutstanding : ℚ
  daysInventoryOutstanding : ℚ
  daysPayablesOutstanding : ℚ
  cashConversionCycle : ℚ
  deriving DecidableEq

/-- `src/types/index.ts` `CapexModel` (the `type` tag is never read). -/
structure CapexModel where
  annualCapex : ℚ
  depreciationRate : ℚ
  deriving DecidableEq

/-- `src/types/index.ts` `DebtStructure`. `debtMaturity` is a JS number used
only as the exponent count `debtMaturity * 12` in `Math.pow`; the embedding
restricts it to `ℕ`, where `Math.pow` is exact iterated multiplication. -/
structure DebtStructure where
  initialDebt : ℚ
  interestRate : ℚ
  debtMaturity : ℕ
  deriving DecidableEq

/-- `src/types/index.ts` `FinancialInputs`, restricted to the fields the
modeling engine reads (ids, dates, revenue model, pricing strategy and
margin targets are never read by `FinancialModelingEngine`). -/
structure FinancialInputs where
  revenueGrowth : List ℚ
  costStructure : CostStructure
  operatingExpenses : OperatingExpenses
  workingCapital : WorkingCapital
  capex : CapexModel
  debtStructure : DebtStructure
  taxRate : ℚ
  discountRate : ℚ
  deriving DecidableEq

/-- Per-period depreciation schedule (`src/types/index.ts`
`DepreciationSchedule`), arrays embedded as functions of the period. -/
structure DepreciationSchedule where
  periods : ℕ
  beginningBalance : ℕ → ℚ
  additions : ℕ → ℚ
  depreciation : ℕ → ℚ
  endingBalance : ℕ → ℚ

/-- Per-period debt schedule (`src/types/index.ts` `DebtSchedule`). -/
structure DebtSchedule where
  periods : ℕ
  beginningBalance : ℕ → ℚ
  newDebt : ℕ → ℚ
  principalPayments : ℕ → ℚ
  interestPayments : ℕ → ℚ
  endingBalance : ℕ → ℚ

/-- Per-period working-capital schedule (`src/types/index.ts`
`WorkingCapitalSchedule`). -/
structure WorkingCapitalSchedule where
  periods : ℕ
  accountsReceivable : ℕ → ℚ
  inventory : ℕ → ℚ
  accountsPayable : ℕ → ℚ
  netWorkingCapital : ℕ → ℚ
  changeInWorkingCapital : ℕ → ℚ

/-- `src/types/index.ts` `IncomeStatement`. -/
structure IncomeStatement where
  periods : ℕ
  revenue : ℕ → ℚ
  costOfGoodsSold : ℕ → ℚ
  grossProfit : ℕ → ℚ
  salesAndMarketing : ℕ → ℚ
  researchAndDevelopment : ℕ → ℚ
  generalAndAdministrative : ℕ → ℚ
  operatingIncome : ℕ → ℚ
  interestExpense : ℕ → ℚ
  taxes : ℕ → ℚ
  netIncome : ℕ → ℚ

/-- `src/types/index.ts` `BalanceSheet` (assets/liabilities/equity groups
flattened into one record). -/
structure BalanceSheet where
  periods : ℕ
  cash : ℕ → ℚ
  accountsReceivable : ℕ → ℚ
  inventory : ℕ → ℚ
  fixedAssets : ℕ → ℚ
  accumulatedDepreciation : ℕ → ℚ
  totalAssets : ℕ → ℚ
  accountsPayable : ℕ → ℚ
  debt : ℕ → ℚ
  totalLiabilities : ℕ → ℚ
  commonStock : ℕ → ℚ
  retainedEarnings : ℕ → ℚ
  totalEquity : ℕ → ℚ

/-- `src/types/index.ts` `CashFlowStatement`. -/
structure CashFlowStatement where
  periods : ℕ
  operatingCashFlow : ℕ → ℚ
  investingCashFlow : ℕ → ℚ
  financingCashFlow : ℕ → ℚ
  netCashFlow : ℕ → ℚ
  endingCash : ℕ → ℚ

/-- `src/types/index.ts` `AuditCheck`; the `message` presentation string
(built with `toFixed`) is omitted, `status` is kept as its literal string. -/
structure AuditCheck where
  id : String
  name : String
  status : String
  value : ℚ
  threshold : ℚ

namespace FinancialModelingEngine

/-- The clamped growth-rate lookup
`inputs.revenueGrowth[Math.min(i, inputs.revenueGrowth.length - 1)]` from
`calculateRevenue`. The source reads `undefined` (hence poisons the model
with NaN) when the list is empty; the ℚ embedding is only used with
nonempty growth lists, where the clamp below is exact. -/
def growthAt (g : List ℚ) (i : ℕ) : ℚ :=
  g.getD (min i (g.length - 1)) 0

/-- `FinancialModelingEngine.calculateRevenue`: base revenue 100000, each
period multiplied by `(1 + growthRate / 12)`; `revenue[i]` is the value
before the i-th multiplication. -/
def calculateRevenue (inputs : FinancialInputs) : ℕ → ℚ
  | 0 => 100000
  | t + 1 => calculateRevenue inputs t * (1 + growthAt inputs.revenueGrowth t / 12)

/-- `FinancialModelingEngine.calculateCostOfGoodsSold`. -/
def calculateCostOfGoodsSold (inputs : FinancialInputs) (revenue : ℕ → ℚ) : ℕ → ℚ :=
  fun t => revenue t * inputs.costStructure.costOfGoodsSold.percentage
      + inputs.costStructure.costOfGoodsSold.fixedCosts

/-- `FinancialModelingEngine.calculateOperatingExpense`. -/
def calculateOperatingExpense (expenseConfig : ExpenseConfig) (revenue : ℕ → ℚ) : ℕ → ℚ :=
  fun t => revenue t * expenseConfig.percentage + expenseConfig.fixedCosts

/-- Ending balance produced by the `generateDepreciationSchedule` loop:
`currentBalance += additions; depreciation = currentBalance * (rate/12);
ending = currentBalance - depreciation`, with monthly additions `a` and
monthly depreciation rate `rho`. -/
def depEnding (a rho : ℚ) : ℕ → ℚ
  | 0 => (0 + a) - (0 + a) * rho
  | t + 1 => (depEnding a rho t + a) - (depEnding a rho t + a) * rho

/-- `FinancialModelingEngine.generateDepreciationSchedule`. -/
def generateDepreciationSchedule (inputs : FinancialInputs) (periods : ℕ) :
    DepreciationSchedule :=
  let a := inputs.capex.annualCapex / 12
  let rho := inputs.capex.depreciationRate / 12
  let beginningBalance : ℕ → ℚ := fun t =>
    match t with
    | 0 => 0
    | t + 1 => depEnding a rho t
  { periods := periods
    beginningBalance := beginningBalance
    additions := fun _ => a
    depreciation := fun t => (beginningBalance t + a) * rho
    endingBalance := depEnding a rho }

/-- The fixed monthly payment `totalPayments` of
`generateDebtSchedule`: `P * (r * (1+r)^n) / ((1+r)^n - 1)` with `n =
debtMaturity * 12`. (In ℚ a zero denominator yields 0; the IEEE NaN/Infinity
behaviour of that degenerate case is analysed separately on `JsNum`.) -/
def debtPayment (P r : ℚ) (n : ℕ) : ℚ :=
  P * (r * (1 + r) ^ n) / ((1 + r) ^ n - 1)

/-- Ending balance of the `generateDebtSchedule` loop: `ending[0] = P` and
for each later period `interest = beginning * r`,
`principal = min(payment - interest, beginning)`,
`ending = beginning - principal`. -/
def debtEnding (P r pay : ℚ) : ℕ → ℚ
  | 0 => P
  | t + 1 => debtEnding P r pay t
      - min (pay - debtEnding P r pay t * r) (debtEnding P r pay t)

/-- `FinancialModelingEngine.generateDebtSchedule`. Period 0 only records
the opening balance (`beginningBalance[0] = endingBalance[0] = initialDebt`),
the amortization loop starts at period 1. -/
def generateDebtSchedule (inputs : FinancialInputs) (periods : ℕ) : DebtSchedule :=
  let P := inputs.debtStructure.initialDebt
  let r := inputs.debtStructure.interestRate / 12
  let pay := debtPayment P r (inputs.debtStructure.debtMaturity * 12)
  let beginningBalance : ℕ → ℚ := fun t =>
    match t with
    | 0 => P
    | t + 1 => debtEnding P r pay t
  let interestPayments : ℕ → ℚ := fun t =>
    match t with
    | 0 => 0
    | t + 1 => beginningBalance (t + 1) * r
  { periods := periods
    beginningBalance := beginningBalance
    newDebt := fun _ => 0
    principalPayments := fun t =>
      match t with
      | 0 => 0
      | t + 1 => min (pay - interestPayments (t + 1)) (beginningBalance (t + 1))
    interestPayments := interestPayments
    endingBalance := debtEnding P r pay }

/-- `FinancialModelingEngine.generateWorkingCapitalSchedule`. The base
amounts are the hard-coded `monthlyRevenue = 100000` and
`monthlyCOGS = monthlyRevenue * 0.6`; the schedule never reads the model's
actual revenue or COGS. -/
def generateWorkingCapitalSchedule (inputs : FinancialInputs) (periods : ℕ) :
    WorkingCapitalSchedule :=
  let monthlyRevenue : ℚ := 100000
  let monthlyCOGS : ℚ := monthlyRevenue * (6 / 10)
  let accountsReceivable : ℕ → ℚ := fun _ =>
    monthlyRevenue * inputs.workingCapital.daysSalesOutstanding / 30
  let inventory : ℕ → ℚ := fun _ =>
    monthlyCOGS * inputs.workingCapital.daysInventoryOutstanding / 30
  let accountsPayable : ℕ → ℚ := fun _ =>
    monthlyCOGS * inputs.workingCapital.daysPayablesOutstanding / 30
  let netWorkingCapital : ℕ → ℚ := fun t =>
    accountsReceivable t + inventory t - accountsPayable t
  { periods := periods
    accountsReceivable := accountsReceivable
    inventory := inventory
    accountsPayable := accountsPayable
    netWorkingCapital := netWorkingCapital
    changeInWorkingCapital := fun t =>
      match t with
      | 0 => 0
      | t + 1 => netWorkingCapital (t + 1) - netWorkingCapital t }

/-- `FinancialModelingEngine.generateIncomeStatement`. -/
def generateIncomeStatement (inputs : FinancialInputs) (periods : ℕ)
    (depreciationSchedule : DepreciationSchedule) (debtSchedule : DebtSchedule) :
    IncomeStatement :=
  let revenue := calculateRevenue inputs
  let costOfGoodsSold := calculateCostOfGoodsSold inputs revenue
  let grossProfit : ℕ → ℚ := fun t => revenue t - costOfGoodsSold t
  let salesAndMarketing :=
    calculateOperatingExpense inputs.operatingExpenses.salesAndMarketing revenue
  let researchAndDevelopment :=
    calculateOperatingExpense inputs.operatingExpenses.researchAndDevelopment revenue
  let generalAndAdministrative :=
    calculateOperatingExpense inputs.operatingExpenses.generalAndAdministrative revenue
  let totalOperatingExpenses : ℕ → ℚ := fun t =>
    salesAndMarketing t + researchAndDevelopment t + generalAndAdministrative t
  let operatingIncome : ℕ → ℚ := fun t => grossProfit t - totalOperatingExpenses t
  let interestExpense := debtSchedule.interestPayments
  let taxes : ℕ → ℚ := fun t =>
    max 0 (operatingIncome t - interestExpense t) * inputs.taxRate
  { periods := periods
    revenue := revenue
    costOfGoodsSold := costOfGoodsSold
    grossProfit := grossProfit
    salesAndMarketing := salesAndMarketing
    researchAndDevelopment := researchAndDevelopment
    generalAndAdministrative := generalAndAdministrative
    operatingIncome := operatingIncome
    interestExpense := interestExpense
    taxes := taxes
    netIncome := fun t => operatingIncome t - interestExpense t - taxes t }

/-- `FinancialModelingEngine.calculateCashBalance`: starts from the
hard-coded 50000, `cash[i]` is the balance before adding `netIncome[i]`. -/
def calculateCashBalance (incomeStatement : IncomeStatement) : ℕ → ℚ
  | 0 => 50000
  | t + 1 => calculateCashBalance incomeStatement t + incomeStatement.netIncome t

/-- `FinancialModelingEngine.calculateRetainedEarnings`: cumulative net
income through period t. -/
def calculateRetainedEarnings (incomeStatement : IncomeStatement) : ℕ → ℚ :=
  fun t => ∑ i in Finset.range (t + 1), incomeStatement.netIncome i

/-- `FinancialModelingEngine.generateBalanceSheet`. -/
def generateBalanceSheet (inputs : FinancialInputs) (periods : ℕ)
    (incomeStatement : IncomeStatement)
    (workingCapitalSchedule : WorkingCapitalSchedule)
    (depreciationSchedule : DepreciationSchedule)
    (debtSchedule : DebtSchedule) : BalanceSheet :=
  let cash := calculateCashBalance incomeStatement
  let accountsReceivable := workingCapitalSchedule.accountsReceivable
  let inventory := workingCapitalSchedule.inventory
  let fixedAssets := depreciationSchedule.endingBalance
  let accumulatedDepreciation : ℕ → ℚ := fun t =>
    ∑ i in Finset.range (t + 1), depreciationSchedule.depreciation i
  let accountsPayable := workingCapitalSchedule.accountsPayable
  let debt := debtSchedule.endingBalance
  let commonStock : ℕ → ℚ := fun _ => inputs.debtStructure.initialDebt * (3 / 10)
  let retainedEarnings := calculateRetainedEarnings incomeStatement
  { periods := periods
    cash := cash
    accountsReceivable := accountsReceivable
    inventory := inventory
    fixedAssets := fixedAssets
    accumulatedDepreciation := accumulatedDepreciation
    totalAssets := fun t =>
      cash t + accountsReceivable t + inventory t + fixedAssets t
        - accumulatedDepreciation t
    accountsPayable := accountsPayable
    debt := debt
    totalLiabilities := fun t => accountsPayable t + debt t
    commonStock := commonStock
    retainedEarnings := retainedEarnings
    totalEquity := fun t => commonStock t + retainedEarnings t }

/-- `FinancialModelingEngine.calculateEndingCash`: running cash starting
from the hard-coded 50000 (there is no opening-cash parameter),
`endingCash[i]` is the balance after adding `netCashFlow[i]`. -/
def calculateEndingCash (netCashFlow : ℕ → ℚ) : ℕ → ℚ
  | 0 => 50000 + netCashFlow 0
  | t + 1 => calculateEndingCash netCashFlow t + netCashFlow (t + 1)

/-- `FinancialModelingEngine.generateCashFlowStatement` (the `balanceSheet`
argument is received but never read, as in the source). -/
def generateCashFlowStatement (inputs : FinancialInputs) (periods : ℕ)
    (incomeStatement : IncomeStatement) (balanceSheet : BalanceSheet)
    (depreciationSchedule : DepreciationSchedule) (debtSchedule : DebtSchedule)
    (workingCapitalSchedule : WorkingCapitalSchedule) : CashFlowStatement :=
  let operatingCashFlow : ℕ → ℚ := fun t =>
    incomeStatement.netIncome t + depreciationSchedule.depreciation t
      - workingCapitalSchedule.changeInWorkingCapital t
  let investingCashFlow : ℕ → ℚ := fun t => -(depreciationSchedule.additions t)
  let financingCashFlow : ℕ → ℚ := fun t =>
    debtSchedule.newDebt t - debtSchedule.principalPayments t
      - debtSchedule.interestPayments t
  let netCashFlow : ℕ → ℚ := fun t =>
    operatingCashFlow t + investingCashFlow t + financingCashFlow t
  { periods := periods
    operatingCashFlow := operatingCashFlow
    investingCashFlow := investingCashFlow
    financingCashFlow := financingCashFlow
    netCashFlow := netCashFlow
    endingCash := calculateEndingCash netCashFlow }

/-- `FinancialModelingEngine.calculateAverageGrowth`: period-over-period
growth rates (skipping periods whose predecessor is not positive), averaged;
0 when fewer than two values or no usable rate. -/
def calculateAverageGrowth (values : List ℚ) : ℚ :=
  if values.length < 2 then 0
  else
    let growthRates := (values.zip values.tail).filterMap fun p =>
      if 0 < p.1 then some ((p.2 - p.1) / p.1) else none
    if growthRates.isEmpty then 0 else growthRates.sum / growthRates.length

/-- `FinancialModelingEngine.generateAuditChecks`: exactly four checks
(revenue growth, gross margin, cash flow, interest coverage) are pushed
unconditionally; the `inputs` and `balanceSheet` arguments are received but
never read, as in the source. -/
def generateAuditChecks (inputs : FinancialInputs)
    (incomeStatement : IncomeStatement) (balanceSheet : BalanceSheet)
    (cashFlowStatement : CashFlowStatement) : List AuditCheck :=
  let avgRevenueGrowth :=
    calculateAverageGrowth ((List.range incomeStatement.periods).map incomeStatement.revenue)
  let avgGrossMargin :=
    ((List.range incomeStatement.periods).map fun i =>
      incomeStatement.grossProfit i / incomeStatement.revenue i).sum
      / (incomeStatement.periods : ℚ)
  let negativeCashFlowPeriods :=
    ((List.range cashFlowStatement.periods).filter fun i =>
      if cashFlowStatement.netCashFlow i < 0 then true else false).length
  let avgInterestCoverage :=
    ((List.range incomeStatement.periods).map fun i =>
      incomeStatement.operatingIncome i / max (incomeStatement.interestExpense i) 1).sum
      / (incomeStatement.periods : ℚ)
  [ { id := "revenue_growth", name := "Revenue Growth"
      status := if 1 / 2 < avgRevenueGrowth then "warning"
        else if avgRevenueGrowth < 0 then "fail" else "pass"
      value := avgRevenueGrowth, threshold := 3 / 10 }
  , { id := "gross_margin", name := "Gross Margin"
      status := if avgGrossMargin < 1 / 10 then "fail"
        else if avgGrossMargin < 2 / 10 then "warning" else "pass"
      value := avgGrossMargin, threshold := 2 / 10 }
  , { id := "cash_flow", name := "Cash Flow"
      status := if 12 < negativeCashFlowPeriods then "fail"
        else if 6 < negativeCashFlowPeriods then "warning" else "pass"
      value := (negativeCashFlowPeriods : ℚ), threshold := 6 }
  , { id := "interest_coverage", name := "Interest Coverage"
      status := if avgInterestCoverage < 3 / 2 then "fail"
        else if avgInterestCoverage < 2 then "warning" else "pass"
      value := avgInterestCoverage, threshold := 2 } ]

/-- `FinancialModelingEngine.calculateNPV`:
`sum of cashFlows[i] / (1 + discountRate/12)^i`. -/
def calculateNPV (cashFlows : List ℚ) (discountRate : ℚ) : ℚ :=
  (cashFlows.enum.map fun p => p.2 / (1 + discountRate / 12) ^ p.1).sum

/-- `FinancialModelingEngine.calculateIRR`, verbatim from the source's
"Simplified IRR calculation": the annualized ratio of total cash flow to
the absolute first cash flow, not a root-find. -/
def calculateIRR (cashFlows : List ℚ) : ℚ :=
  let totalCF := cashFlows.sum
  let initialInvestment := |cashFlows.headI|
  if 0 < totalCF then (totalCF / initialInvestment - 1) * 12 else 0

end FinancialModelingEngine

/-! ### JS number model with the IEEE special values

`JsNum` represents a JS `number` as NaN, a signed infinity, or an exact
rational. The operations below follow the IEEE-754/ECMAScript rules for
producing and propagating NaN and infinities; on finite operands they are
exact (no rounding), which agrees with the doubles the source computes for
the small concrete inputs analysed here. Negative zero is not
distinguished from zero (no analysed computation depends on it). -/

inductive JsNum where
  | nan : JsNum
  | inf : Bool → JsNum
  | fin : ℚ → JsNum
  deriving DecidableEq

namespace JsNum

/-- JS `+` on numbers. -/
def add : JsNum → JsNum → JsNum
  | nan, _ => nan
  | _, nan => nan
  | inf p, inf q => if p = q then inf p else nan
  | inf p, fin _ => inf p
  | fin _, inf q => inf q
  | fin a, fin b => fin (a + b)

/-- JS unary minus. -/
def neg : JsNum → JsNum
  | nan => nan
  | inf p => inf (!p)
  | fin a => fin (-a)

/-- JS `-` on numbers. -/
def sub (x y : JsNum) : JsNum := add x (neg y)

/-- JS `*` on numbers. -/
def mul : JsNum → JsNum → JsNum
  | nan, _ => nan
  | _, nan => nan
  | inf p, inf q => inf (p = q)
  | inf p, fin b => if b = 0 then nan else inf (p = (0 < b))
  | fin a, inf q => if a = 0 then nan else inf (q = (0 < a))
  | fin a, fin b => fin (a * b)

/-- JS `/` on numbers: `0/0 = NaN`, `x/0 = ±Infinity` for `x ≠ 0`. -/
def div : JsNum → JsNum → JsNum
  | nan, _ => nan
  | _, nan => nan
  | inf _, inf _ => nan
  | inf p, fin b => if b = 0 then inf p else inf (p = (0 < b))
  | fin _, inf _ => fin 0
  | fin a, fin b =>
    if b = 0 then (if a = 0 then nan else inf (0 < a)) else fin (a / b)

/-- `Math.pow` with a natural exponent, as iterated multiplication (exact
for finite bases; `pow x 0 = 1` holds in JS even for NaN). -/
def pow (x : JsNum) : ℕ → JsNum
  | 0 => fin 1
  | n + 1 => mul (pow x n) x

/-- `Math.min` on two numbers: NaN if either argument is NaN. -/
def jsMin : JsNum → JsNum → JsNum
  | nan, _ => nan
  | _, nan => nan
  | inf p, inf q => inf (p && q)
  | inf p, fin b => if p then fin b else inf false
  | fin a, inf q => if q then fin a else inf false
  | fin a, fin b => fin (min a b)

end JsNum

/-- `DebtSchedule` with JS-number entries, for tracking NaN/Infinity. -/
structure DebtScheduleJs where
  periods : ℕ
  beginningBalance : ℕ → JsNum
  newDebt : ℕ → JsNum
  principalPayments : ℕ → JsNum
  interestPayments : ℕ → JsNum
  endingBalance : ℕ → JsNum

namespace FinancialModelingEngine

/-- The ending-balance recursion of `generateDebtSchedule`, computed in JS
number semantics. -/
def debtEndingJs (P r pay : JsNum) : ℕ → JsNum
  | 0 => P
  | t + 1 =>
    JsNum.sub (debtEndingJs P r pay t)
      (JsNum.jsMin (JsNum.sub pay (JsNum.mul (debtEndingJs P r pay t) r))
        (debtEndingJs P r pay t))

/-- `FinancialModelingEngine.generateDebtSchedule` re-embedded over `JsNum`,
so that the NaN/Infinity behaviour of `totalPayments = P*(r*(1+r)^n) /
((1+r)^n - 1)` on degenerate inputs is represented exactly. -/
def generateDebtScheduleJs (debtStructure : DebtStructure) (periods : ℕ) :
    DebtScheduleJs :=
  let P := JsNum.fin debtStructure.initialDebt
  let monthlyRate := JsNum.div (JsNum.fin debtStructure.interestRate) (JsNum.fin 12)
  let growthFactor := JsNum.pow (JsNum.add (JsNum.fin 1) monthlyRate)
    (debtStructure.debtMaturity * 12)
  let totalPayments := JsNum.div (JsNum.mul P (JsNum.mul monthlyRate growthFactor))
    (JsNum.sub growthFactor (JsNum.fin 1))
  let beginningBalance : ℕ → JsNum := fun t =>
    match t with
    | 0 => P
    | t + 1 => debtEndingJs P monthlyRate totalPayments t
  let interestPayments : ℕ → JsNum := fun t =>
    match t with
    | 0 => JsNum.fin 0
    | t + 1 => JsNum.mul (beginningBalance (t + 1)) monthlyRate
  { periods := periods
    beginningBalance := beginningBalance
    newDebt := fun _ => JsNum.fin 0
    principalPayments := fun t =>
      match t with
      | 0 => JsNum.fin 0
      | t + 1 => JsNum.jsMin (JsNum.sub totalPayments (interestPayments (t + 1)))
          (beginningBalance (t + 1))
    interestPayments := interestPayments
    endingBalance := debtEndingJs P monthlyRate totalPayments }

end FinancialModelingEngine

/-! ### Template engine (`src/lib/template-engine.ts`, `src/unnamed/part_008`)

Raw inputs are a JS object `Record<string, any>`, embedded as an
association list from keys to `JsValue`; a key absent from the list embeds
the JS `undefined` (and `null`, which the source treats identically at the
`??` and emptiness checks). Processed inputs map each template input id to
its resolved value, which can still be `undefined` for a non-required input
with no default. -/

/-- A raw template input value: the templates and the analysed requests only
carry numbers and strings. -/
inductive JsValue where
  | num : ℚ → JsValue
  | str : String → JsValue
  deriving DecidableEq

namespace TemplateEngine

/-- `ValidationRule` from the template engine. The source stores a range
rule's bounds as the string `"min,max"` and splits/parses it at evaluation
time (`rule.condition.split(',').map(Number)`); the embedding carries the
two parsed bounds. Rules of other types ignore the bounds. -/
structure ValidationRule where
  type : String
  field : String
  lo : ℚ
  hi : ℚ
  message : String
  severity : String
  deriving DecidableEq

/-- `InputDefinition` from the template engine (`type`, `category`,
`description`, `unit` are never read by the embedded code paths). -/
structure InputDefinition where
  id : String
  name : String
  required : Bool
  default : Option JsValue
  validation : List ValidationRule
  deriving DecidableEq

/-- One `CalculationStep` of a `ScheduleDefinition` (only `id` and
`formula` are read). -/
structure CalculationStep where
  id : String
  formula : String
  deriving DecidableEq

/-- `ScheduleDefinition` (only `id` and `calculations` are read). -/
structure ScheduleDefinition where
  id : String
  calculations : List CalculationStep
  deriving DecidableEq

/-- `ModelSchema`: the `outputs` list is never read by the engine. -/
structure ModelSchema where
  inputs : List InputDefinition
  schedules : List ScheduleDefinition
  deriving DecidableEq

/-- `ModelTemplate`, restricted to the fields the engine reads (`name`,
`description`, `version`, `formulas`, `sheets` are presentation data). In
the source the `real_estate` template nests its `validation` inside
`schema` so its top-level `validation` is `undefined`; behaviourally this
equals the empty list used here. -/
structure ModelTemplate where
  id : String
  businessTypes : List String
  schema : ModelSchema
  validation : List ValidationRule
  deriving DecidableEq

/-- The emptiness test of `validateInput`:
`value === undefined || value === null || value === ''`. -/
def isEmptyValue : Option JsValue → Bool
  | none => true
  | some (JsValue.str s) => s == ""
  | some (JsValue.num _) => false

/-- `TemplateEngine.evaluateValidationRule`. A range rule compares
`value >= min && value <= max`; with an `undefined` or non-numeric value the
JS comparisons are false (NaN comparisons), matching the catch-all here. -/
def evaluateValidationRule (rule : ValidationRule) (value : Option JsValue) : Bool :=
  if rule.type == "range" then
    match value with
    | some (JsValue.num q) => if rule.lo ≤ q ∧ q ≤ rule.hi then true else false
    | _ => false
  else if rule.type == "required" then !(isEmptyValue value)
  else true

/-- `TemplateEngine.validateInput`: the required-field error followed by the
message of every failing rule, all for this one field. -/
def validateInput (inputDef : InputDefinition) (value : Option JsValue) : List String :=
  (if inputDef.required && isEmptyValue value then [inputDef.name ++ " is required"] else [])
    ++ (inputDef.validation.filter fun rule =>
        !(evaluateValidationRule rule value)).map (·.message)

/-- The value resolution `inputs[inputDef.id] ?? inputDef.default` of
`processInputs`. -/
def resolveValue (inputs : List (String × JsValue)) (inputDef : InputDefinition) :
    Option JsValue :=
  (inputs.lookup inputDef.id).or inputDef.default

/-- The loop of `TemplateEngine.processInputs` over the template's input
definitions: on the first field whose validation errors are nonempty it
throws (`Error` interpolating the field id and the error list, kept here as
a structured pair); otherwise it accumulates the resolved values. -/
def processInputsList (defs : List InputDefinition)
    (inputs : List (String × JsValue)) :
    Except (String × List String) (List (String × Option JsValue)) :=
  match defs with
  | [] => Except.ok []
  | d :: ds =>
    let value := resolveValue inputs d
    let errors := validateInput d value
    if errors.isEmpty then
      (processInputsList ds inputs).map fun rest => (d.id, value) :: rest
    else Except.error (d.id, errors)

/-- `TemplateEngine.processInputs`. -/
def processInputs (template : ModelTemplate) (inputs : List (String × JsValue)) :
    Except (String × List String) (List (String × Option JsValue)) :=
  processInputsList template.schema.inputs inputs

/-- JS truthy-or on a processed numeric input: `inputs.key || fallback`
(0, `undefined` and missing keys are falsy). The analysed requests never
put a truthy non-number at an arithmetically used key. -/
def getNumOr (processed : List (String × Option JsValue)) (key : String)
    (fallback : ℚ) : ℚ :=
  match processed.lookup key with
  | some (some (JsValue.num q)) => if q = 0 then fallback else q
  | _ => fallback

/-- Whether `p` is an initial segment of `s` (character lists). -/
def charsStartWith : List Char → List Char → Bool
  | [], _ => true
  | _ :: _, [] => false
  | c :: cs, d :: ds => c == d && charsStartWith cs ds

/-- Whether `p` occurs contiguously inside `s` (character lists). -/
def charsContain (p : List Char) : List Char → Bool
  | [] => p.isEmpty
  | c :: cs => charsStartWith p (c :: cs) || charsContain p cs

/-- JS `String.prototype.includes`, as substring search over the character
lists. -/
def strIncludes (s pat : String) : Bool := charsContain pat.data s.data

/-- `TemplateEngine.evaluateFormula`: keyword-matched placeholder
evaluation over the 60-period horizon. The `schedules` argument is received
but never read, as in the source. -/
def evaluateFormula (formula : String)
    (inputs : List (String × Option JsValue))
    (schedules : List (String × (ℕ → ℚ))) : ℕ → ℚ :=
  if strIncludes formula "revenue_growth" then
    let growthRate := getNumOr inputs "revenue_growth_rate" 0
    fun i => (1 + growthRate / 12) ^ i
  else if strIncludes formula "depreciation" then
    let assetValue := getNumOr inputs "initial_assets" 0
    let depreciationRate := getNumOr inputs "depreciation_rate" (1 / 10)
    fun _ => assetValue * (depreciationRate / 12)
  else if strIncludes formula "interest" then
    let debtAmount := getNumOr inputs "initial_debt" 0
    let interestRate := getNumOr inputs "interest_rate" (1 / 20)
    fun _ => debtAmount * (interestRate / 12)
  else fun _ => 0

/-- `TemplateEngine.calculateSchedule`: each calculation step's result keyed
by its step id, later steps seeing the earlier ones. -/
def calculateSchedule (scheduleDef : ScheduleDefinition)
    (inputs : List (String × Option JsValue)) : List (String × (ℕ → ℚ)) :=
  scheduleDef.calculations.foldl
    (fun schedule step =>
      schedule ++ [(step.id, evaluateFormula step.formula inputs schedule)]) []

/-- `TemplateEngine.calculateSchedules`. -/
def calculateSchedules (template : ModelTemplate)
    (inputs : List (String × Option JsValue)) :
    List (String × List (String × (ℕ → ℚ))) :=
  template.schema.schedules.map fun sd => (sd.id, calculateSchedule sd inputs)

/-- Optional-chained schedule access `schedules.<schedId>?.<stepId>` with
its `|| zero-array` fallback. -/
def schedArrOr (schedules : List (String × List (String × (ℕ → ℚ))))
    (schedId stepId : String) : ℕ → ℚ :=
  ((schedules.lookup schedId).bind fun s => s.lookup stepId).getD fun _ => 0

/-- `TemplateEngine.calculateRevenue`: starting revenue
`inputs.initial_revenue || 100000`, monthly growth
`inputs.revenue_growth_rate || 0`. -/
def calculateRevenue (inputs : List (String × Option JsValue)) : ℕ → ℚ
  | 0 => getNumOr inputs "initial_revenue" 100000
  | t + 1 => calculateRevenue inputs t
      * (1 + getNumOr inputs "revenue_growth_rate" 0 / 12)

/-- `TemplateEngine.calculateCostOfGoodsSold`:
`revenue * (inputs.cogs_percentage || 0.6)`. -/
def calculateCostOfGoodsSold (inputs : List (String × Option JsValue))
    (revenue : ℕ → ℚ) : ℕ → ℚ :=
  fun t => revenue t * getNumOr inputs "cogs_percentage" (6 / 10)

/-- `TemplateEngine.calculateOperatingExpense`:
`revenue * (budgetPercentage / 100)`. -/
def calculateOperatingExpense (budgetPercentage : ℚ) (revenue : ℕ → ℚ) : ℕ → ℚ :=
  fun t => revenue t * (budgetPercentage / 100)

/-- `TemplateEngine.generateIncomeStatement` (horizon fixed at 60). -/
def generateIncomeStatement (inputs : List (String × Option JsValue))
    (schedules : List (String × List (String × (ℕ → ℚ)))) (periods : ℕ) :
    IncomeStatement :=
  let revenue := calculateRevenue inputs
  let costOfGoodsSold := calculateCostOfGoodsSold inputs revenue
  let grossProfit : ℕ → ℚ := fun t => revenue t - costOfGoodsSold t
  let salesAndMarketing :=
    calculateOperatingExpense (getNumOr inputs "sales_marketing_budget" 0) revenue
  let researchAndDevelopment :=
    calculateOperatingExpense (getNumOr inputs "research_development_budget" 0) revenue
  let generalAndAdministrative :=
    calculateOperatingExpense (getNumOr inputs "general_administrative_budget" 0) revenue
  let totalOperatingExpenses : ℕ → ℚ := fun t =>
    salesAndMarketing t + researchAndDevelopment t + generalAndAdministrative t
  let operatingIncome : ℕ → ℚ := fun t => grossProfit t - totalOperatingExpenses t
  let interestExpense := schedArrOr schedules "debt" "interestPayments"
  let taxes : ℕ → ℚ := fun t =>
    max 0 (operatingIncome t - interestExpense t) * getNumOr inputs "tax_rate" (1 / 4)
  { periods := periods
    revenue := revenue
    costOfGoodsSold := costOfGoodsSold
    grossProfit := grossProfit
    salesAndMarketing := salesAndMarketing
    researchAndDevelopment := researchAndDevelopment
    generalAndAdministrative := generalAndAdministrative
    operatingIncome := operatingIncome
    interestExpense := interestExpense
    taxes := taxes
    netIncome := fun t => operatingIncome t - interestExpense t - taxes t }

/-- `TemplateEngine.calculateCashBalance` (duplicate of the modeling
engine's: hard-coded 50000 start). -/
def calculateCashBalance (incomeStatement : IncomeStatement) : ℕ → ℚ
  | 0 => 50000
  | t + 1 => calculateCashBalance incomeStatement t + incomeStatement.netIncome t

/-- `TemplateEngine.calculateRetainedEarnings`. -/
def calculateRetainedEarnings (incomeStatement : IncomeStatement) : ℕ → ℚ :=
  fun t => ∑ i in Finset.range (t + 1), incomeStatement.netIncome i

/-- `TemplateEngine.calculateEndingCash` (duplicate of the modeling
engine's: running cash from the hard-coded 50000, no opening-cash
parameter). -/
def calculateEndingCash (netCashFlow : ℕ → ℚ) : ℕ → ℚ
  | 0 => 50000 + netCashFlow 0
  | t + 1 => calculateEndingCash netCashFlow t + netCashFlow (t + 1)

/-- `TemplateEngine.generateBalanceSheet`. -/
def generateBalanceSheet (inputs : List (String × Option JsValue))
    (schedules : List (String × List (String × (ℕ → ℚ))))
    (incomeStatement : IncomeStatement) (periods : ℕ) : BalanceSheet :=
  let cash := calculateCashBalance incomeStatement
  let accountsReceivable := schedArrOr schedules "workingCapital" "accountsReceivable"
  let inventory := schedArrOr schedules "workingCapital" "inventory"
  let fixedAssets := schedArrOr schedules "depreciation" "endingBalance"
  let accumulatedDepreciation :=
    schedArrOr schedules "depreciation" "accumulatedDepreciation"
  let accountsPayable := schedArrOr schedules "workingCapital" "accountsPayable"
  let debt := schedArrOr schedules "debt" "endingBalance"
  let commonStock : ℕ → ℚ := fun _ => getNumOr inputs "initial_equity" 100000
  let retainedEarnings := calculateRetainedEarnings incomeStatement
  { periods := periods
    cash := cash
    accountsReceivable := accountsReceivable
    inventory := inventory
    fixedAssets := fixedAssets
    accumulatedDepreciation := accumulatedDepreciation
    totalAssets := fun t =>
      cash t + accountsReceivable t + inventory t + fixedAssets t
        - accumulatedDepreciation t
    accountsPayable := accountsPayable
    debt := debt
    totalLiabilities := fun t => accountsPayable t + debt t
    commonStock := commonStock
    retainedEarnings := retainedEarnings
    totalEquity := fun t => commonStock t + retainedEarnings t }

/-- `TemplateEngine.generateCashFlowStatement`. -/
def generateCashFlowStatement (inputs : List (String × Option JsValue))
    (schedules : List (String × List (String × (ℕ → ℚ))))
    (incomeStatement : IncomeStatement) (balanceSheet : BalanceSheet)
    (periods : ℕ) : CashFlowStatement :=
  let operatingCashFlow : ℕ → ℚ := fun t =>
    incomeStatement.netIncome t + schedArrOr schedules "depreciation" "depreciation" t
      - schedArrOr schedules "workingCapital" "changeInWorkingCapital" t
  let investingCashFlow : ℕ → ℚ := fun t =>
    -(schedArrOr schedules "depreciation" "additions" t)
  let financingCashFlow := schedArrOr schedules "debt" "netCashFlow"
  let netCashFlow : ℕ → ℚ := fun t =>
    operatingCashFlow t + investingCashFlow t + financingCashFlow t
  { periods := periods
    operatingCashFlow := operatingCashFlow
    investingCashFlow := investingCashFlow
    financingCashFlow := financingCashFlow
    netCashFlow := netCashFlow
    endingCash := calculateEndingCash netCashFlow }

/-- `TemplateEngine.generateAuditChecks`: empty when the template has no
validation rules, otherwise one always-`pass` check per rule (the
`statements` argument of the source method is never read). -/
def generateAuditChecks (template : ModelTemplate) : List AuditCheck :=
  if template.validation.isEmpty then []
  else template.validation.map fun rule =>
    { id := rule.field, name := rule.field, status := "pass"
      value := 0, threshold := 0 }

/-- The model assembled by `TemplateEngine.applyTemplate` (generated id and
timestamps omitted; the single base scenario it builds carries the
all-zero `calculateScenarioResults` and is omitted as data-free). -/
structure FinancialModel where
  incomeStatement : IncomeStatement
  balanceSheet : BalanceSheet
  cashFlowStatement : CashFlowStatement
  schedules : List (String × List (String × (ℕ → ℚ)))
  auditChecks : List AuditCheck

/-- `TemplateEngine.applyTemplate`: validate and resolve the inputs
(propagating the thrown validation error), then compute schedules and the
three statements over the fixed 60-period horizon. -/
def applyTemplate (template : ModelTemplate) (inputs : List (String × JsValue)) :
    Except (String × List String) FinancialModel :=
  (processInputs template inputs).map fun processedInputs =>
    let schedules := calculateSchedules template processedInputs
    let incomeStatement := generateIncomeStatement processedInputs schedules 60
    let balanceSheet := generateBalanceSheet processedInputs schedules incomeStatement 60
    let cashFlowStatement :=
      generateCashFlowStatement processedInputs schedules incomeStatement balanceSheet 60
    { incomeStatement := incomeStatement
      balanceSheet := balanceSheet
      cashFlowStatement := cashFlowStatement
      schedules := schedules
      auditChecks := generateAuditChecks template }

/-- The `saas` template registered by the engine's template initialization. -/
def saasTemplate : ModelTemplate :=
  { id := "saas"
    businessTypes := ["saas"]
    schema :=
    { inputs :=
      [ { id := "initial_mrr", name := "Initial Monthly Recurring Revenue"
          required := true, default := none, validation := [] }
      , { id := "revenue_growth_rate", name := "Monthly Revenue Growth Rate"
          required := true, default := some (JsValue.num (5 / 100))
          validation := [ { type := "range", field := "revenue_growth_rate",
                              lo := 0, hi := 5 / 10,
                              message := "Growth rate must be between 0% and 50%",
                              severity := "error" } ] }
      , { id := "churn_rate", name := "Monthly Churn Rate"
          required := true, default := some (JsValue.num (2 / 100))
          validation := [ { type := "range", field := "churn_rate",
                              lo := 0, hi := 2 / 10,
                              message := "Churn rate must be between 0% and 20%",
                              severity := "error" } ] }
      , { id := "gross_margin", name := "Gross Margin"
          required := true, default := some (JsValue.num (8 / 10))
          validation := [ { type := "range", field := "gross_margin",
                              lo := 0, hi := 1,
                              message := "Gross margin must be between 0% and 100%",
                              severity := "error" } ] }
      , { id := "sales_marketing_budget", name := "Sales & Marketing Budget"
          required := true, default := some (JsValue.num (3 / 10))
          validation := [ { type := "range", field := "sales_marketing_budget",
                              lo := 0, hi := 1,
                              message := "Budget must be between 0% and 100%",
                              severity := "error" } ] }
      , { id := "research_development_budget", name := "R&D Budget"
          required := true, default := some (JsValue.num (15 / 100))
          validation := [ { type := "range", field := "research_development_budget",
                              lo := 0, hi := 1,
                              message := "Budget must be between 0% and 100%",
                              severity := "error" } ] }
      , { id := "tax_rate", name := "Effective Tax Rate"
          required := true, default := some (JsValue.num (25 / 100))
          validation := [ { type := "range", field := "tax_rate",
                              lo := 0, hi := 5 / 10,
                              message := "Tax rate must be between 0% and 50%",
                              severity := "error" } ] } ]
      schedules :=
      [ { id := "revenue_schedule"
          calculations :=
          [ { id := "monthly_revenue"
              formula := "initial_mrr * (1 + revenue_growth_rate)^period * (1 - churn_rate)^period" } ] } ] }
    validation := [ { type := "range", field := "revenue_growth_rate",
                      lo := 0, hi := 5 / 10,
                      message := "Revenue growth rate must be between 0% and 50%",
                      severity := "error" } ] }

/-- The `ecommerce` template. -/
def ecommerceTemplate : ModelTemplate :=
  { id := "ecommerce"
    businessTypes := ["ecommerce"]
    schema :=
    { inputs :=
      [ { id := "starting_customers", name := "Starting Customers"
          required := true, default := none, validation := [] }
      , { id := "new_customers_per_month", name := "New Customers per Month"
          required := true, default := some (JsValue.num 10), validation := [] }
      , { id := "churn_rate", name := "Monthly Churn Rate"
          required := true, default := some (JsValue.num (5 / 100))
          validation := [ { type := "range", field := "churn_rate",
                              lo := 0, hi := 3 / 10,
                              message := "Churn rate must be between 0% and 30%",
                              severity := "error" } ] }
      , { id := "price_per_customer", name := "Price per Customer"
          required := true, default := none, validation := [] }
      , { id := "cogs_per_customer", name := "COGS per Customer"
          required := true, default := none, validation := [] }
      , { id := "opex_per_month", name := "Fixed Operating Expenses"
          required := true, default := some (JsValue.num 5000), validation := [] }
      , { id := "initial_cash", name := "Initial Cash"
          required := true, default := some (JsValue.num 50000), validation := [] } ]
      schedules :=
      [ { id := "customer_schedule"
          calculations :=
          [ { id := "total_customers"
              formula := "starting_customers + (new_customers_per_month * period) - (starting_customers * churn_rate * period)" }
          , { id := "revenue"
              formula := "total_customers * price_per_customer" } ] } ] }
    validation := [] }

/-- The `marketplace` template. -/
def marketplaceTemplate : ModelTemplate :=
  { id := "marketplace"
    businessTypes := ["marketplace"]
    schema :=
    { inputs :=
      [ { id := "gmv", name := "Gross Merchandise Value"
          required := true, default := none, validation := [] }
      , { id := "take_rate", name := "Take Rate"
          required := true, default := some (JsValue.num (15 / 100))
          validation := [ { type := "range", field := "take_rate",
                              lo := 0, hi := 5 / 10,
                              message := "Take rate must be between 0% and 50%",
                              severity := "error" } ] }
      , { id := "transaction_volume", name := "Monthly Transaction Volume"
          required := true, default := none, validation := [] }
      , { id := "average_order_value", name := "Average Order Value"
          required := true, default := none, validation := [] }
      , { id := "customer_acquisition_cost", name := "Customer Acquisition Cost"
          required := true, default := none, validation := [] }
      , { id := "operating_expenses", name := "Operating Expenses"
          required := true, default := some (JsValue.num 10000), validation := [] } ]
      schedules := [] }
    validation := [] }

/-- The `services` template. -/
def servicesTemplate : ModelTemplate :=
  { id := "services"
    businessTypes := ["services"]
    schema :=
    { inputs :=
      [ { id := "billable_hours", name := "Billable Hours per Month"
          required := true, default := none, validation := [] }
      , { id := "hourly_rate", name := "Average Hourly Rate"
          required := true, default := none, validation := [] }
      , { id := "utilization_rate", name := "Utilization Rate"
          required := true, default := some (JsValue.num (75 / 100))
          validation := [ { type := "range", field := "utilization_rate",
                              lo := 0, hi := 1,
                              message := "Utilization rate must be between 0% and 100%",
                              severity := "error" } ] }
      , { id := "team_size", name := "Team Size"
          required := true, default := none, validation := [] }
      , { id := "average_salary", name := "Average Salary"
          required := true, default := none, validation := [] }
      , { id := "other_expenses", name := "Other Operating Expenses"
          required := true, default := some (JsValue.num 5000), validation := [] } ]
      schedules := [] }
    validation := [] }

/-- The `hardware` template. -/
def hardwareTemplate : ModelTemplate :=
  { id := "hardware"
    businessTypes := ["hardware"]
    schema :=
    { inputs :=
      [ { id := "units_sold", name := "Units Sold per Month"
          required := true, default := none, validation := [] }
      , { id := "unit_price", name := "Unit Price"
          required := true, default := none, validation := [] }
      , { id := "unit_cost", name := "Unit Cost"
          required := true, default := none, validation := [] }
      , { id := "inventory_turnover", name := "Inventory Turnover"
          required := true, default := some (JsValue.num 4), validation := [] }
      , { id := "manufacturing_capacity", name := "Manufacturing Capacity"
          required := true, default := none, validation := [] }
      , { id := "fixed_costs", name := "Fixed Manufacturing Costs"
          required := true, default := none, validation := [] } ]
      schedules := [] }
    validation := [] }

/-- The `manufacturing` template. -/
def manufacturingTemplate : ModelTemplate :=
  { id := "manufacturing"
    businessTypes := ["manufacturing"]
    schema :=
    { inputs :=
      [ { id := "production_capacity", name := "Production Capacity"
          required := true, default := none, validation := [] }
      , { id := "capacity_utilization", name := "Capacity Utilization"
          required := true, default := some (JsValue.num (8 / 10))
          validation := [ { type := "range", field := "capacity_utilization",
                              lo := 0, hi := 1,
                              message := "Capacity utilization must be between 0% and 100%",
                              severity := "error" } ] }
      , { id := "unit_price", name := "Unit Selling Price"
          required := true, default := none, validation := [] }
      , { id := "variable_cost_per_unit", name := "Variable Cost per Unit"
          required := true, default := none, validation := [] }
      , { id := "fixed_manufacturing_costs", name := "Fixed Manufacturing Costs"
          required := true, default := none, validation := [] }
      , { id := "equipment_depreciation", name := "Equipment Depreciation"
          required := true, default := some (JsValue.num 5000), validation := [] } ]
      schedules := [] }
    validation := [] }

/-- The `real_estate` template. In the source its `validation` (and
`formulas`/`sheets`) keys sit inside `schema` by mistake, so the top-level
`template.validation` is `undefined`; that behaves exactly like the empty
list recorded here. -/
def realEstateTemplate : ModelTemplate :=
  { id := "real_estate"
    businessTypes := ["real_estate"]
    schema :=
    { inputs :=
      [ { id := "property_value", name := "Property Value"
          required := true, default := none, validation := [] }
      , { id := "rental_income", name := "Monthly Rental Income"
          required := true, default := none, validation := [] }
      , { id := "occupancy_rate", name := "Occupancy Rate"
          required := true, default := some (JsValue.num (95 / 100))
          validation := [ { type := "range", field := "occupancy_rate",
                              lo := 0, hi := 1,
                              message := "Occupancy rate must be between 0% and 100%",
                              severity := "error" } ] }
      , { id := "operating_expenses", name := "Operating Expenses"
          required := true, default := none, validation := [] }
      , { id := "mortgage_payment", name := "Monthly Mortgage Payment"
          required := true, default := none, validation := [] }
      , { id := "property_taxes", name := "Property Taxes"
          required := true, default := none, validation := [] }
      , { id := "appreciation_rate", name := "Property Appreciation Rate"
          required := true, default := some (JsValue.num (3 / 100))
          validation := [] } ]
      schedules := [] }
    validation := [] }

/-- The `financial` template. -/
def financialTemplate : ModelTemplate :=
  { id := "financial"
    businessTypes := ["financial"]
    schema :=
    { inputs :=
      [ { id := "assets_under_management", name := "Assets Under Management"
          required := true, default := none, validation := [] }
      , { id := "management_fee", name := "Management Fee Rate"
          required := true, default := some (JsValue.num (1 / 100))
          validation := [ { type := "range", field := "management_fee",
                              lo := 0, hi := 5 / 100,
                              message := "Management fee must be between 0% and 5%",
                              severity := "error" } ] }
      , { id := "transaction_volume", name := "Transaction Volume"
          required := true, default := none, validation := [] }
      , { id := "transaction_fee", name := "Transaction Fee Rate"
          required := true, default := some (JsValue.num (25 / 10000))
          validation := [] }
      , { id := "operating_expenses", name := "Operating Expenses"
          required := true, default := none, validation := [] }
      , { id := "regulatory_capital", name := "Regulatory Capital"
          required := true, default := none, validation := [] } ]
      schedules := [] }
    validation := [] }

/-- The `default` template: the designated fallback for unknown business
types. -/
def defaultTemplate : ModelTemplate :=
  { id := "default"
    businessTypes := ["default"]
    schema :=
    { inputs :=
      [ { id := "initial_revenue", name := "Initial Revenue"
          required := true, default := none, validation := [] }
      , { id := "revenue_growth_rate", name := "Revenue Growth Rate"
          required := true, default := some (JsValue.num (5 / 100))
          validation := [] } ]
      schedules := [] }
    validation := [] }

/-- The registry built by the engine's template initialization: the
insertion-ordered key/template map. -/
def templates : List (String × ModelTemplate) :=
  [ ("saas", saasTemplate)
  , ("ecommerce", ecommerceTemplate)
  , ("marketplace", marketplaceTemplate)
  , ("services", servicesTemplate)
  , ("hardware", hardwareTemplate)
  , ("manufacturing", manufacturingTemplate)
  , ("real_estate", realEstateTemplate)
  , ("financial", financialTemplate)
  , ("default", defaultTemplate) ]

/-- `TemplateEngine.getTemplate`:
`this.templates.get(businessType) || this.templates.get('default')!`. -/
def getTemplate (businessType : String) : ModelTemplate :=
  (templates.lookup businessType).getD defaultTemplate

end TemplateEngine

namespace FinancialModelingEngine

/-- `Scenario.results` (`npv`, `irr`, `paybackPeriod`; the `keyMetrics`
aggregates are presentation data and omitted). -/
structure ScenarioResults where
  npv : ℚ
  irr : ℚ
  paybackPeriod : ℕ

/-- A scenario of the generated model (name/description strings omitted). -/
structure Scenario where
  id : String
  results : ScenarioResults

/-- The loop of `calculatePaybackPeriod`: first 1-based period index at
which cumulative cash flow is nonnegative. -/
def paybackGo : List ℚ → ℚ → ℕ → ℕ
  | [], _, i => i
  | cf :: rest, cumulativeCF, i =>
    if 0 ≤ cumulativeCF + cf then i + 1 else paybackGo rest (cumulativeCF + cf) (i + 1)

/-- `FinancialModelingEngine.calculatePaybackPeriod` (returns the number of
cash flows when cumulative cash flow never recovers). -/
def calculatePaybackPeriod (cashFlows : List ℚ) : ℕ :=
  paybackGo cashFlows 0 0

/-- `FinancialModelingEngine.calculateScenarioResults`: NPV, IRR and
payback of the statement's net cash flow array. -/
def calculateScenarioResults (incomeStatement : IncomeStatement)
    (balanceSheet : BalanceSheet) (cashFlowStatement : CashFlowStatement)
    (discountRate : ℚ) : ScenarioResults :=
  let cashFlows := (List.range cashFlowStatement.periods).map cashFlowStatement.netCashFlow
  { npv := calculateNPV cashFlows discountRate
    irr := calculateIRR cashFlows
    paybackPeriod := calculatePaybackPeriod cashFlows }

/-- `FinancialModelingEngine.generateScenarios`: base, optimistic and
pessimistic scenarios — all three reuse the already-computed statements and
differ only in the discount rate handed to `calculateScenarioResults`. -/
def generateScenarios (inputs : FinancialInputs)
    (incomeStatement : IncomeStatement) (balanceSheet : BalanceSheet)
    (cashFlowStatement : CashFlowStatement) : List Scenario :=
  [ { id := "base"
      results := calculateScenarioResults incomeStatement balanceSheet
        cashFlowStatement inputs.discountRate }
  , { id := "optimistic"
      results := calculateScenarioResults incomeStatement balanceSheet
        cashFlowStatement (inputs.discountRate * (9 / 10)) }
  , { id := "pessimistic"
      results := calculateScenarioResults incomeStatement balanceSheet
        cashFlowStatement (inputs.discountRate * (11 / 10)) } ]

/-- The `FinancialModel` aggregate assembled by `generateFinancialModel`
(generated id and timestamps omitted). -/
structure FinancialModel where
  incomeStatement : IncomeStatement
  balanceSheet : BalanceSheet
  cashFlowStatement : CashFlowStatement
  depreciation : DepreciationSchedule
  debt : DebtSchedule
  workingCapital : WorkingCapitalSchedule
  scenarios : List Scenario
  auditChecks : List AuditCheck

/-- `FinancialModelingEngine.generateFinancialModel`: the fixed 60-period
pipeline schedules → income statement → balance sheet → cash flow →
scenarios and audit checks. -/
def generateFinancialModel (inputs : FinancialInputs) : FinancialModel :=
  let periods := 60
  let depreciationSchedule := generateDepreciationSchedule inputs periods
  let debtSchedule := generateDebtSchedule inputs periods
  let workingCapitalSchedule := generateWorkingCapitalSchedule inputs periods
  let incomeStatement :=
    generateIncomeStatement inputs periods depreciationSchedule debtSchedule
  let balanceSheet := generateBalanceSheet inputs periods incomeStatement
    workingCapitalSchedule depreciationSchedule debtSchedule
  let cashFlowStatement := generateCashFlowStatement inputs periods incomeStatement
    balanceSheet depreciationSchedule debtSchedule workingCapitalSchedule
  { incomeStatement := incomeStatement
    balanceSheet := balanceSheet
    cashFlowStatement := cashFlowStatement
    depreciation := depreciationSchedule
    debt := debtSchedule
    workingCapital := workingCapitalSchedule
    scenarios :=
      generateScenarios inputs incomeStatement balanceSheet cashFlowStatement
    auditChecks :=
      generateAuditChecks inputs incomeStatement balanceSheet cashFlowStatement }

end FinancialModelingEngine

/-! ### Concrete inputs used by the theorems -/

/-- A valid, deliberately simple modeling-engine input: flat revenue, no
costs, no capex, no working-capital days, no debt, no taxes. Every source
computation on it is exact, so the ℚ model coincides with the doubles the
source produces. -/
def exInputs : FinancialInputs :=
  { revenueGrowth := [0]
    costStructure := { costOfGoodsSold := { percentage := 0, fixedCosts := 0 } }
    operatingExpenses :=
    { salesAndMarketing := { percentage := 0, fixedCosts := 0 }
      researchAndDevelopment := { percentage := 0, fixedCosts := 0 }
      generalAndAdministrative := { percentage := 0, fixedCosts := 0 } }
    workingCapital :=
    { daysSalesOutstanding := 0
      daysInventoryOutstanding := 0
      daysPayablesOutstanding := 0
      cashConversionCycle := 0 }
    capex := { annualCapex := 0, depreciationRate := 0 }
    debtStructure := { initialDebt := 0, interestRate := 5 / 100, debtMaturity := 5 }
    taxRate := 0
    discountRate := 1 / 10 }

/-- `exInputs` with a different revenue-growth path but identical
working-capital assumptions. -/
def exInputsOtherRevenue : FinancialInputs :=
  { exInputs with revenueGrowth := [1 / 10] }

/-- `exInputs` with an actual amortizing loan: 1000 at 12% annual interest,
5-year maturity. -/
def exDebtInputs : FinancialInputs :=
  { exInputs with
    debtStructure := { initialDebt := 1000, interestRate := 12 / 100, debtMaturity := 5 } }

/-- The raw request of the unknown-template scenario:
`inputs = \x7b initial_revenue: 10000, revenue_growth_rate: 0.05 \x7d`. -/
def c8Inputs : List (String × JsValue) :=
  [ ("initial_revenue", JsValue.num 10000)
  , ("revenue_growth_rate", JsValue.num (5 / 100)) ]

/-- A valid raw request for the `ecommerce` template carrying an explicit
opening-cash input `initial_cash = 123456` (the remaining defaulted fields
resolve from the template). -/
def c3Inputs : List (String × JsValue) :=
  [ ("starting_customers", JsValue.num 10)
  , ("price_per_customer", JsValue.num 100)
  , ("cogs_per_customer", JsValue.num 60)
  , ("initial_cash", JsValue.num 123456) ]

/-- The raw request of the concrete SaaS scenario:
`initial_mrr: 50000, revenue_growth_rate: 0.05, churn_rate: 0.02,
gross_margin: 0.8, tax_rate: 0.25`. -/
def c9Inputs : List (String × JsValue) :=
  [ ("initial_mrr", JsValue.num 50000)
  , ("revenue_growth_rate", JsValue.num (5 / 100))
  , ("churn_rate", JsValue.num (2 / 100))
  , ("gross_margin", JsValue.num (8 / 10))
  , ("tax_rate", JsValue.num (25 / 100)) ]

/-- The resolved inputs that `processInputs` produces for the SaaS request
`c9Inputs` (supplied values for the five given fields, template defaults
for the two budget fields). -/
def c9Processed : List (String × Option JsValue) :=
  [ ("initial_mrr", some (JsValue.num 50000))
  , ("revenue_growth_rate", some (JsValue.num (5 / 100)))
  , ("churn_rate", some (JsValue.num (2 / 100)))
  , ("gross_margin", some (JsValue.num (8 / 10)))
  , ("sales_marketing_budget", some (JsValue.num (3 / 10)))
  , ("research_development_budget", some (JsValue.num (15 / 100)))
  , ("tax_rate", some (JsValue.num (25 / 100))) ]

/-! ### Shared evaluation lemmas -/

/-- Unfold an association-list lookup one step, turning the key comparison
into a decidable `if`. -/
theorem lookup_cons {β : Type} (k k' : String) (v : β) (l : List (String × β)) :
    List.lookup k ((k', v) :: l) = if k = k' then some v else List.lookup k l := by
  by_cases h : k = k'
  · subst h; simp [List.lookup]
  · have hb : (k == k') = false := by simpa using h
    simp [List.lookup, hb, h]

/-- `filterMap` of a constant list collapses to a `replicate` when the
function keeps the element. -/
theorem filterMap_replicate_some {α β : Type} (f : α → Option β) (a : α) (b : β)
    (h : f a = some b) (n : ℕ) :
    (List.replicate n a).filterMap f = List.replicate n b := by
  induction n with
  | zero => rfl
  | succ n ih => simp [List.replicate_succ, h, ih]

namespace TemplateEngine

/-- `processInputsList` fails exactly on the first input definition (in
template order) whose validation error list is nonempty, and the thrown
report carries that single field's id with that field's errors. -/
theorem processInputsList_error_iff (defs : List InputDefinition)
    (inputs : List (String × JsValue)) (e : String × List String) :
    processInputsList defs inputs = Except.error e ↔
      ∃ d, defs.find?
          (fun d => !(validateInput d (resolveValue inputs d)).isEmpty) = some d
        ∧ e = (d.id, validateInput d (resolveValue inputs d)) := by
  induction defs with
  | nil => simp [processInputsList]
  | cons d ds ih =>
    cases h : (validateInput d (resolveValue inputs d)).isEmpty with
    | false =>
      have hfind : (d :: ds).find?
          (fun d => !(validateInput d (resolveValue inputs d)).isEmpty) = some d :=
        List.find?_cons_of_pos _ (by simp [h])
      rw [processInputsList, hfind]
      simp only [h, Bool.false_eq_true, if_false, Except.error.injEq,
        Option.some.injEq]
      constructor
      · rintro rfl; exact ⟨d, rfl, rfl⟩
      · rintro ⟨d', rfl, he⟩; exact he.symm
    | true =>
      have hfind : (d :: ds).find?
            (fun d => !(validateInput d (resolveValue inputs d)).isEmpty)
          = ds.find? (fun d => !(validateInput d (resolveValue inputs d)).isEmpty) :=
        List.find?_cons_of_neg _ (by simp [h])
      rw [processInputsList, hfind, ← ih]
      simp only [h, if_true]
      cases processInputsList ds inputs <;> simp [Except.map]

end TemplateEngine

/-- `Math.pow` on a finite JS number with a natural exponent is the exact
rational power. -/
theorem jsNum_pow_fin (q : ℚ) (n : ℕ) :
    JsNum.pow (JsNum.fin q) n = JsNum.fin (q ^ n) := by
  induction n with
  | zero => rfl
  | succ n ih => rw [JsNum.pow, ih, pow_succ]; rfl

/-! ### Claim theorems -/

/-- C1 (amended): input validation does not collect violations across
fields — `processInputs` throws on the first input definition (in template
order) whose validation errors are nonempty, and the report carries exactly
that single field's id together with that field's full error list. -/
theorem c1_validation_reports_first_failing_field_only
    (template : TemplateEngine.ModelTemplate)
    (inputs : List (String × JsValue)) (e : String × List String) :
    TemplateEngine.processInputs template inputs = Except.error e ↔
      ∃ d, template.schema.inputs.find?
          (fun d => !(TemplateEngine.validateInput d
            (TemplateEngine.resolveValue inputs d)).isEmpty) = some d
        ∧ e = (d.id, TemplateEngine.validateInput d
            (TemplateEngine.resolveValue inputs d)) :=
  TemplateEngine.processInputsList_error_iff template.schema.inputs inputs e

/-- C1 (counterexample): the empty input map for the `ecommerce` template
misses several distinct required fields without defaults
(`starting_customers` and `price_per_customer` among them), yet the
validation report names only the first, `starting_customers`, with just
that field's error. -/
theorem c1_missing_two_fields_reports_one :
    TemplateEngine.processInputs TemplateEngine.ecommerceTemplate []
      = Except.error ("starting_customers", ["Starting Customers is required"]) ∧
    ∃ d ∈ TemplateEngine.ecommerceTemplate.schema.inputs,
      d.id = "price_per_customer" ∧ d.required = true ∧
      TemplateEngine.resolveValue [] d = none ∧ d.id ≠ "starting_customers" := by
  refine ⟨rfl, ?_⟩
  refine ⟨{ id := "price_per_customer", name := "Price per Customer"
            required := true, default := none, validation := [] }, ?_, rfl, rfl, rfl, by decide⟩
  simp [TemplateEngine.ecommerceTemplate]

/-- C3 (amended): ending cash obeys the continuity recurrence
`endingCash[t] = endingCash[t-1] + netCashFlow[t]` in both engines, but the
pre-period balance is the hard-coded constant 50000
(`endingCash[0] = 50000 + netCashFlow[0]`), not a caller-supplied
opening-cash input. -/
theorem c3_ending_cash_recurrence_from_constant (netCashFlow : ℕ → ℚ) :
    (FinancialModelingEngine.calculateEndingCash netCashFlow 0
        = 50000 + netCashFlow 0 ∧
      TemplateEngine.calculateEndingCash netCashFlow 0
        = 50000 + netCashFlow 0) ∧
    ∀ t, FinancialModelingEngine.calculateEndingCash netCashFlow (t + 1)
        = FinancialModelingEngine.calculateEndingCash netCashFlow t + netCashFlow (t + 1) ∧
      TemplateEngine.calculateEndingCash netCashFlow (t + 1)
        = TemplateEngine.calculateEndingCash netCashFlow t + netCashFlow (t + 1) :=
  ⟨⟨rfl, rfl⟩, fun _ => ⟨rfl, rfl⟩⟩

/-- C3 (witness): the recurrence theorem instantiated at the zero cash-flow
stream. -/
theorem c3_ending_cash_recurrence_witness :
    FinancialModelingEngine.calculateEndingCash (fun _ => 0) 1
      = FinancialModelingEngine.calculateEndingCash (fun _ => 0) 0 + 0 :=
  (c3_ending_cash_recurrence_from_constant (fun _ => 0)).2 0 |>.1

/-- C3 (counterexample): an `ecommerce` request carrying the explicit
opening-cash input `initial_cash = 123456` generates successfully, but the
resulting `endingCash[0]` is `50000 + netCashFlow[0] = 80000`, not
`123456 + netCashFlow[0]`: the supplied opening cash is ignored in favour
of the hidden constant. -/
theorem c3_opening_cash_input_ignored :
    List.lookup "initial_cash" c3Inputs = some (JsValue.num 123456) ∧
    ∃ m, TemplateEngine.applyTemplate TemplateEngine.ecommerceTemplate c3Inputs
        = Except.ok m ∧
      m.cashFlowStatement.netCashFlow 0 = 30000 ∧
      m.cashFlowStatement.endingCash 0 = 80000 ∧
      m.cashFlowStatement.endingCash 0 ≠ 123456 + m.cashFlowStatement.netCashFlow 0 := by
  have h : TemplateEngine.processInputs TemplateEngine.ecommerceTemplate c3Inputs =
      Except.ok
        [ ("starting_customers", some (JsValue.num 10))
        , ("new_customers_per_month", some (JsValue.num 10))
        , ("churn_rate", some (JsValue.num (5 / 100)))
        , ("price_per_customer", some (JsValue.num 100))
        , ("cogs_per_customer", some (JsValue.num 60))
        , ("opex_per_month", some (JsValue.num 5000))
        , ("initial_cash", some (JsValue.num 123456)) ] := by
    simp [TemplateEngine.processInputs, TemplateEngine.processInputsList,
      TemplateEngine.resolveValue, TemplateEngine.validateInput,
      TemplateEngine.evaluateValidationRule, TemplateEngine.isEmptyValue,
      TemplateEngine.ecommerceTemplate, c3Inputs, lookup_cons, Except.map]
    norm_num [Except.map]
  refine ⟨by simp [c3Inputs, lookup_cons], _, by rw [TemplateEngine.applyTemplate, h]; rfl, ?_, ?_, ?_⟩
  all_goals
    simp [TemplateEngine.generateCashFlowStatement,
      TemplateEngine.generateIncomeStatement, TemplateEngine.generateBalanceSheet,
      TemplateEngine.calculateSchedules, TemplateEngine.calculateSchedule,
      TemplateEngine.evaluateFormula, TemplateEngine.strIncludes,
      TemplateEngine.calculateRevenue, TemplateEngine.calculateCostOfGoodsSold,
      TemplateEngine.calculateOperatingExpense, TemplateEngine.getNumOr,
      TemplateEngine.schedArrOr, TemplateEngine.calculateEndingCash,
      TemplateEngine.calculateCashBalance, TemplateEngine.calculateRetainedEarnings,
      TemplateEngine.ecommerceTemplate, TemplateEngine.charsContain,
      TemplateEngine.charsStartWith, lookup_cons]
  all_goals norm_num

/-- C4 (counterexample): period 0 of the generated debt schedule records no
payment at all: with a 1000 loan at 12% annual interest (monthly rate 1%),
`interestPayments[0] = 0` although `beginningBalance[0] * r = 10`, so
`interest[t] = beginning[t]·r` fails at `t = 0`. -/
theorem c4_period_zero_records_no_payment :
    (FinancialModelingEngine.generateDebtSchedule exDebtInputs 60).interestPayments 0 = 0 ∧
    (FinancialModelingEngine.generateDebtSchedule exDebtInputs 60).beginningBalance 0
        * (exDebtInputs.debtStructure.interestRate / 12) = 10 ∧
    (FinancialModelingEngine.generateDebtSchedule exDebtInputs 60).interestPayments 0
      ≠ (FinancialModelingEngine.generateDebtSchedule exDebtInputs 60).beginningBalance 0
        * (exDebtInputs.debtStructure.interestRate / 12) := by
  refine ⟨rfl, ?_, ?_⟩ <;>
    norm_num [FinancialModelingEngine.generateDebtSchedule, exDebtInputs, exInputs]

/-- C5: `calculateIRR` is the linear approximation
`(totalCF / |cashFlows[0]| - 1) * 12` and not a root of the NPV function:
on the cash flows `[-100, 50, 60]` it reports `-10.8`, where the engine's
own NPV evaluates to 6400, not 0. -/
theorem c5_irr_is_not_npv_root :
    FinancialModelingEngine.calculateIRR [-100, 50, 60] = -54 / 5 ∧
    FinancialModelingEngine.calculateNPV [-100, 50, 60]
      (FinancialModelingEngine.calculateIRR [-100, 50, 60]) = 6400 ∧
    (6400 : ℚ) ≠ 0 := by
  have hirr : FinancialModelingEngine.calculateIRR [-100, 50, 60] = -54 / 5 := by
    norm_num [FinancialModelingEngine.calculateIRR, List.headI]
  refine ⟨hirr, ?_, by norm_num⟩
  rw [hirr]
  norm_num [FinancialModelingEngine.calculateNPV, List.enum, List.enumFrom]

/-- C6: with a zero interest rate (an input no validation rejects) the debt
schedule's fixed payment is the JS expression `0/0 = NaN`, and the NaN
propagates undetected into the schedule's output arrays:
`principalPayments[1]` and `endingBalance[1]` are NaN in the 60-period
schedule. There is no `ComputationAnomaly` detection anywhere in the
engine. -/
theorem c6_nan_reaches_output_arrays :
    (FinancialModelingEngine.generateDebtScheduleJs
        { initialDebt := 1000, interestRate := 0, debtMaturity := 5 } 60).periods = 60 ∧
    (FinancialModelingEngine.generateDebtScheduleJs
        { initialDebt := 1000, interestRate := 0, debtMaturity := 5 } 60).principalPayments 1
      = JsNum.nan ∧
    (FinancialModelingEngine.generateDebtScheduleJs
        { initialDebt := 1000, interestRate := 0, debtMaturity := 5 } 60).endingBalance 1
      = JsNum.nan := by
  refine ⟨rfl, ?_, ?_⟩ <;>
    norm_num [FinancialModelingEngine.generateDebtScheduleJs,
      FinancialModelingEngine.debtEndingJs, jsNum_pow_fin,
      JsNum.div, JsNum.add, JsNum.sub, JsNum.mul, JsNum.neg, JsNum.jsMin]

/-- C8: an unregistered business-type id resolves to the default template
(never a failure), and the concrete request `businessTypeId =
"not_a_real_type"` with `initial_revenue = 10000`,
`revenue_growth_rate = 0.05` generates successfully with all three
statements spanning 60 periods. -/
theorem c8_unknown_template_falls_back_to_default :
    (∀ businessType, List.lookup businessType TemplateEngine.templates = none →
      TemplateEngine.getTemplate businessType = TemplateEngine.defaultTemplate) ∧
    TemplateEngine.getTemplate "not_a_real_type" = TemplateEngine.defaultTemplate ∧
    ∃ m, TemplateEngine.applyTemplate (TemplateEngine.getTemplate "not_a_real_type") c8Inputs
        = Except.ok m ∧
      m.incomeStatement.periods = 60 ∧ m.balanceSheet.periods = 60 ∧
      m.cashFlowStatement.periods = 60 := by
  have hget : TemplateEngine.getTemplate "not_a_real_type" = TemplateEngine.defaultTemplate := by
    simp [TemplateEngine.getTemplate, TemplateEngine.templates, lookup_cons]
  have h : TemplateEngine.processInputs TemplateEngine.defaultTemplate c8Inputs =
      Except.ok
        [ ("initial_revenue", some (JsValue.num 10000))
        , ("revenue_growth_rate", some (JsValue.num (5 / 100))) ] := by
    simp [TemplateEngine.processInputs, TemplateEngine.processInputsList,
      TemplateEngine.resolveValue, TemplateEngine.validateInput,
      TemplateEngine.evaluateValidationRule, TemplateEngine.isEmptyValue,
      TemplateEngine.defaultTemplate, c8Inputs, lookup_cons, Except.map]
  refine ⟨fun businessType hb => ?_, hget, ?_⟩
  · rw [TemplateEngine.getTemplate, hb]; rfl
  · rw [hget]
    exact ⟨_, by rw [TemplateEngine.applyTemplate, h]; rfl, rfl, rfl, rfl⟩

/-- C8 (witness): the fallback clause applied at the concrete unregistered
id `"not_a_real_type"`. -/
theorem c8_unknown_template_witness :
    TemplateEngine.getTemplate "not_a_real_type" = TemplateEngine.defaultTemplate :=
  c8_unknown_template_falls_back_to_default.1 "not_a_real_type"
    (by simp [TemplateEngine.templates, lookup_cons])

/-- C10: the working-capital schedule is computed from the hard-coded base
`monthlyRevenue = 100000` and `monthlyCOGS = 60000`: each of AR, inventory
and AP is the same constant in every period, `changeInWorkingCapital` is 0
in every period, and the whole schedule depends only on the
working-capital day counts — two inputs agreeing on `workingCapital`
produce identical schedules whatever their revenue drivers. -/
theorem c10_working_capital_hardcoded_and_flat
    (inputs inputs' : FinancialInputs) (periods t : ℕ)
    (hwc : inputs.workingCapital = inputs'.workingCapital) :
    (FinancialModelingEngine.generateWorkingCapitalSchedule inputs periods).accountsReceivable t
        = 100000 * inputs.workingCapital.daysSalesOutstanding / 30 ∧
    (FinancialModelingEngine.generateWorkingCapitalSchedule inputs periods).inventory t
        = 100000 * (6 / 10) * inputs.workingCapital.daysInventoryOutstanding / 30 ∧
    (FinancialModelingEngine.generateWorkingCapitalSchedule inputs periods).accountsPayable t
        = 100000 * (6 / 10) * inputs.workingCapital.daysPayablesOutstanding / 30 ∧
    (FinancialModelingEngine.generateWorkingCapitalSchedule inputs periods).changeInWorkingCapital t
        = 0 ∧
    FinancialModelingEngine.generateWorkingCapitalSchedule inputs periods
      = FinancialModelingEngine.generateWorkingCapitalSchedule inputs' periods := by
  refine ⟨rfl, rfl, rfl, ?_, ?_⟩
  · cases t with
    | zero => rfl
    | succ t =>
      show (100000 * inputs.workingCapital.daysSalesOutstanding / 30
          + 100000 * (6 / 10) * inputs.workingCapital.daysInventoryOutstanding / 30
          - 100000 * (6 / 10) * inputs.workingCapital.daysPayablesOutstanding / 30)
        - (100000 * inputs.workingCapital.daysSalesOutstanding / 30
          + 100000 * (6 / 10) * inputs.workingCapital.daysInventoryOutstanding / 30
          - 100000 * (6 / 10) * inputs.workingCapital.daysPayablesOutstanding / 30) = 0
      ring
  · simp only [FinancialModelingEngine.generateWorkingCapitalSchedule, hwc]

/-- C10 (witness): the working-capital theorem applied to two concrete
inputs that differ in their revenue-growth path but share their
working-capital days. -/
theorem c10_working_capital_witness :
    (FinancialModelingEngine.generateWorkingCapitalSchedule exInputs 60).accountsReceivable 7
        = 100000 * exInputs.workingCapital.daysSalesOutstanding / 30 ∧
    (FinancialModelingEngine.generateWorkingCapitalSchedule exInputs 60).inventory 7
        = 100000 * (6 / 10) * exInputs.workingCapital.daysInventoryOutstanding / 30 ∧
    (FinancialModelingEngine.generateWorkingCapitalSchedule exInputs 60).accountsPayable 7
        = 100000 * (6 / 10) * exInputs.workingCapital.daysPayablesOutstanding / 30 ∧
    (FinancialModelingEngine.generateWorkingCapitalSchedule exInputs 60).changeInWorkingCapital 7
        = 0 ∧
    FinancialModelingEngine.generateWorkingCapitalSchedule exInputs 60
      = FinancialModelingEngine.generateWorkingCapitalSchedule exInputsOtherRevenue 60 :=
  c10_working_capital_hardcoded_and_flat exInputs exInputsOtherRevenue 60 7 rfl

/-- For a positive monthly rate and at least one payment period, the fixed
amortizing payment is at least the interest on the full principal. -/
theorem debtPayment_ge_interest (P r : ℚ) (n : ℕ) (hP : 0 ≤ P) (hr : 0 < r)
    (hn : 1 ≤ n) : P * r ≤ FinancialModelingEngine.debtPayment P r n := by
  have hx : 1 < (1 + r) ^ n := one_lt_pow (by linarith) (by omega)
  rw [FinancialModelingEngine.debtPayment, le_div_iff (by linarith)]
  nlinarith [mul_nonneg hP hr.le]

/-- The outstanding balance of the amortization loop stays within
`[0, P]` whenever the payment covers the interest on the principal. -/
theorem debtEnding_bounds (P r pay : ℚ) (hP : 0 ≤ P) (hr : 0 < r)
    (hpay : P * r ≤ pay) (t : ℕ) :
    0 ≤ FinancialModelingEngine.debtEnding P r pay t ∧
      FinancialModelingEngine.debtEnding P r pay t ≤ P := by
  induction t with
  | zero => exact ⟨hP, le_refl P⟩
  | succ t ih =>
    obtain ⟨h0, hle⟩ := ih
    have hbr : FinancialModelingEngine.debtEnding P r pay t * r ≤ P * r :=
      mul_le_mul_of_nonneg_right hle hr.le
    have hmin0 : 0 ≤ min (pay - FinancialModelingEngine.debtEnding P r pay t * r)
        (FinancialModelingEngine.debtEnding P r pay t) :=
      le_min (by linarith) h0
    have hminb : min (pay - FinancialModelingEngine.debtEnding P r pay t * r)
        (FinancialModelingEngine.debtEnding P r pay t)
        ≤ FinancialModelingEngine.debtEnding P r pay t := min_le_right _ _
    rw [FinancialModelingEngine.debtEnding]
    exact ⟨by linarith, by linarith⟩

/-- C4 (amended): for a nonnegative principal, positive annual rate and a
maturity of at least one year, the generated debt schedule satisfies the
amortization equations in every period from period 1 on — `beginning[0] =
ending[0] = P`, `beginning[t+1] = ending[t]`, and for `t+1`:
`interest = beginning·r`, `principal = min(payment - interest, beginning)`
is never negative, `ending = beginning - principal` and the balance is
non-increasing — while period 0 itself records no payment
(`interest[0] = principal[0] = 0`), contrary to the claim's "every period
t". -/
theorem c4_debt_schedule_amortizes_from_period_one
    (inputs : FinancialInputs) (periods t : ℕ)
    (hP : 0 ≤ inputs.debtStructure.initialDebt)
    (hr : 0 < inputs.debtStructure.interestRate)
    (hm : 1 ≤ inputs.debtStructure.debtMaturity) :
    let s := FinancialModelingEngine.generateDebtSchedule inputs periods
    let P := inputs.debtStructure.initialDebt
    let r := inputs.debtStructure.interestRate / 12
    let pay := FinancialModelingEngine.debtPayment P r
      (inputs.debtStructure.debtMaturity * 12)
    s.beginningBalance 0 = P ∧ s.interestPayments 0 = 0 ∧
    s.principalPayments 0 = 0 ∧ s.endingBalance 0 = P ∧
    s.beginningBalance (t + 1) = s.endingBalance t ∧
    s.interestPayments (t + 1) = s.beginningBalance (t + 1) * r ∧
    s.principalPayments (t + 1)
      = min (pay - s.interestPayments (t + 1)) (s.beginningBalance (t + 1)) ∧
    0 ≤ s.principalPayments (t + 1) ∧
    s.endingBalance (t + 1) = s.beginningBalance (t + 1) - s.principalPayments (t + 1) ∧
    s.endingBalance (t + 1) ≤ s.endingBalance t := by
  intro s P r pay
  have hr12 : 0 < r := by
    have : (0 : ℚ) < 12 := by norm_num
    exact div_pos hr this
  have hn : 1 ≤ inputs.debtStructure.debtMaturity * 12 := by omega
  have hpay : P * r ≤ pay := debtPayment_ge_interest P r _ hP hr12 hn
  have hbounds := debtEnding_bounds P r pay hP hr12 hpay t
  have hbr : FinancialModelingEngine.debtEnding P r pay t * r ≤ P * r :=
    mul_le_mul_of_nonneg_right hbounds.2 hr12.le
  have hprin0 : 0 ≤ min (pay - FinancialModelingEngine.debtEnding P r pay t * r)
      (FinancialModelingEngine.debtEnding P r pay t) :=
    le_min (by linarith) hbounds.1
  refine ⟨rfl, rfl, rfl, rfl, rfl, rfl, rfl, hprin0, ?_, ?_⟩
  · show FinancialModelingEngine.debtEnding P r pay (t + 1) = _
    rw [FinancialModelingEngine.debtEnding]; rfl
  · show FinancialModelingEngine.debtEnding P r pay (t + 1)
      ≤ FinancialModelingEngine.debtEnding P r pay t
    rw [FinancialModelingEngine.debtEnding]
    linarith

/-- C4 (witness): the amortization theorem instantiated for the concrete
1000-at-12%-for-5-years loan at period 4. -/
theorem c4_debt_schedule_amortizes_witness :
    let s := FinancialModelingEngine.generateDebtSchedule exDebtInputs 60
    let P := exDebtInputs.debtStructure.initialDebt
    let r := exDebtInputs.debtStructure.interestRate / 12
    let pay := FinancialModelingEngine.debtPayment P r
      (exDebtInputs.debtStructure.debtMaturity * 12)
    s.beginningBalance 0 = P ∧ s.interestPayments 0 = 0 ∧
    s.principalPayments 0 = 0 ∧ s.endingBalance 0 = P ∧
    s.beginningBalance (3 + 1) = s.endingBalance 3 ∧
    s.interestPayments (3 + 1) = s.beginningBalance (3 + 1) * r ∧
    s.principalPayments (3 + 1)
      = min (pay - s.interestPayments (3 + 1)) (s.beginningBalance (3 + 1)) ∧
    0 ≤ s.principalPayments (3 + 1) ∧
    s.endingBalance (3 + 1) = s.beginningBalance (3 + 1) - s.principalPayments (3 + 1) ∧
    s.endingBalance (3 + 1) ≤ s.endingBalance 3 :=
  c4_debt_schedule_amortizes_from_period_one exDebtInputs 60 3
    (by norm_num [exDebtInputs, exInputs])
    (by norm_num [exDebtInputs, exInputs])
    (by norm_num [exDebtInputs, exInputs])

/-- The template engine's revenue recursion on the resolved SaaS inputs:
it starts from `initial_revenue || 100000 = 100000` (ignoring
`initial_mrr`) and compounds at `(1 + 0.05/12)` per month (ignoring
churn). -/
theorem c9_revenue_closed_form (t : ℕ) :
    TemplateEngine.calculateRevenue c9Processed t = 100000 * (241 / 240) ^ t := by
  induction t with
  | zero =>
    simp [TemplateEngine.calculateRevenue, TemplateEngine.getNumOr,
      c9Processed, lookup_cons]
  | succ t ih =>
    rw [TemplateEngine.calculateRevenue, ih]
    simp [TemplateEngine.getNumOr, c9Processed, lookup_cons]
    rw [pow_succ]
    ring

/-- C9: the SaaS request `initial_mrr = 50000, growth = 0.05,
churn = 0.02, gross_margin = 0.8, tax = 0.25` generates, but the engine
ignores `initial_mrr` (revenue starts at the hard-coded 100000, not
≈ 50000), ignores `gross_margin` (gross profit is 40% of revenue from the
`cogs_percentage || 0.6` fallback, not 80%), and monthly-compounds the
growth rate so that `revenue[11] < 1.3 · revenue[0]`. -/
theorem c9_saas_engine_ignores_mrr_and_margin :
    ∃ m, TemplateEngine.applyTemplate (TemplateEngine.getTemplate "saas") c9Inputs
        = Except.ok m ∧
      m.incomeStatement.revenue 0 = 100000 ∧
      m.incomeStatement.revenue 0 ≠ 50000 ∧
      m.incomeStatement.grossProfit 0 = 40000 ∧
      m.incomeStatement.grossProfit 0 ≠ (8 / 10) * m.incomeStatement.revenue 0 ∧
      m.incomeStatement.revenue 11 < (13 / 10) * m.incomeStatement.revenue 0 := by
  have hget : TemplateEngine.getTemplate "saas" = TemplateEngine.saasTemplate := by
    simp [TemplateEngine.getTemplate, TemplateEngine.templates, lookup_cons]
  have h : TemplateEngine.processInputs TemplateEngine.saasTemplate c9Inputs
      = Except.ok c9Processed := by
    simp [TemplateEngine.processInputs, TemplateEngine.processInputsList,
      TemplateEngine.resolveValue, TemplateEngine.validateInput,
      TemplateEngine.evaluateValidationRule, TemplateEngine.isEmptyValue,
      TemplateEngine.saasTemplate, c9Inputs, c9Processed, lookup_cons, Except.map]
    norm_num
  rw [hget]
  refine ⟨_, by rw [TemplateEngine.applyTemplate, h]; rfl, ?_, ?_, ?_, ?_, ?_⟩
  all_goals
    simp only [TemplateEngine.generateIncomeStatement,
      TemplateEngine.calculateCostOfGoodsSold, c9_revenue_closed_form]
  all_goals
    simp [TemplateEngine.getNumOr, c9Processed, lookup_cons]
  all_goals norm_num

/-! ### Evaluation of the modeling engine on the concrete input `exInputs` -/

/-- The clamped growth lookup on `exInputs` always yields the flat rate 0. -/
theorem ex_growthAt (t : ℕ) :
    FinancialModelingEngine.growthAt exInputs.revenueGrowth t = 0 := by
  simp [FinancialModelingEngine.growthAt, exInputs]

/-- Revenue on `exInputs` is flat at the hard-coded base 100000. -/
theorem ex_revenue (t : ℕ) :
    FinancialModelingEngine.calculateRevenue exInputs t = 100000 := by
  induction t with
  | zero => rfl
  | succ t ih =>
    rw [FinancialModelingEngine.calculateRevenue, ih, ex_growthAt]; norm_num

/-- The depreciation recursion with no capex and no depreciation rate
stays at 0. -/
theorem depEnding_zero (t : ℕ) : FinancialModelingEngine.depEnding 0 0 t = 0 := by
  induction t with
  | zero => rw [FinancialModelingEngine.depEnding]; norm_num
  | succ t ih => rw [FinancialModelingEngine.depEnding, ih]; norm_num

/-- The debt-balance recursion with zero principal and zero payment stays
at 0 for any rate. -/
theorem debtEnding_zeroP (r : ℚ) (t : ℕ) :
    FinancialModelingEngine.debtEnding 0 r 0 t = 0 := by
  induction t with
  | zero => rfl
  | succ t ih => rw [FinancialModelingEngine.debtEnding, ih]; norm_num

/-- On `exInputs` the depreciation schedule is identically zero. -/
theorem ex_dep_schedule (t : ℕ) :
    (FinancialModelingEngine.generateDepreciationSchedule exInputs 60).depreciation t = 0 ∧
    (FinancialModelingEngine.generateDepreciationSchedule exInputs 60).additions t = 0 ∧
    (FinancialModelingEngine.generateDepreciationSchedule exInputs 60).endingBalance t = 0 := by
  refine ⟨?_, ?_, ?_⟩ <;>
    simp [FinancialModelingEngine.generateDepreciationSchedule, exInputs, depEnding_zero]

/-- On `exInputs` (no initial debt) the debt schedule is identically
zero. -/
theorem ex_debt_schedule (t : ℕ) :
    (FinancialModelingEngine.generateDebtSchedule exInputs 60).interestPayments t = 0 ∧
    (FinancialModelingEngine.generateDebtSchedule exInputs 60).principalPayments t = 0 ∧
    (FinancialModelingEngine.generateDebtSchedule exInputs 60).newDebt t = 0 ∧
    (FinancialModelingEngine.generateDebtSchedule exInputs 60).endingBalance t = 0 := by
  refine ⟨?_, ?_, rfl, ?_⟩ <;> cases t <;>
    simp [FinancialModelingEngine.generateDebtSchedule,
      FinancialModelingEngine.debtPayment, exInputs, debtEnding_zeroP]

/-- On `exInputs` (zero day counts) the working-capital schedule is
identically zero. -/
theorem ex_wc_schedule (t : ℕ) :
    (FinancialModelingEngine.generateWorkingCapitalSchedule exInputs 60).accountsReceivable t = 0 ∧
    (FinancialModelingEngine.generateWorkingCapitalSchedule exInputs 60).inventory t = 0 ∧
    (FinancialModelingEngine.generateWorkingCapitalSchedule exInputs 60).accountsPayable t = 0 ∧
    (FinancialModelingEngine.generateWorkingCapitalSchedule exInputs 60).changeInWorkingCapital t = 0 := by
  refine ⟨?_, ?_, ?_, ?_⟩ <;> cases t <;>
    simp [FinancialModelingEngine.generateWorkingCapitalSchedule, exInputs]

/-- On `exInputs` the income statement is flat: revenue, gross profit and
operating income 100000, interest 0, taxes 0, net income 100000. -/
theorem ex_income_statement (t : ℕ) :
    (FinancialModelingEngine.generateIncomeStatement exInputs 60
        (FinancialModelingEngine.generateDepreciationSchedule exInputs 60)
        (FinancialModelingEngine.generateDebtSchedule exInputs 60)).revenue t = 100000 ∧
    (FinancialModelingEngine.generateIncomeStatement exInputs 60
        (FinancialModelingEngine.generateDepreciationSchedule exInputs 60)
        (FinancialModelingEngine.generateDebtSchedule exInputs 60)).grossProfit t = 100000 ∧
    (FinancialModelingEngine.generateIncomeStatement exInputs 60
        (FinancialModelingEngine.generateDepreciationSchedule exInputs 60)
        (FinancialModelingEngine.generateDebtSchedule exInputs 60)).operatingIncome t = 100000 ∧
    (FinancialModelingEngine.generateIncomeStatement exInputs 60
        (FinancialModelingEngine.generateDepreciationSchedule exInputs 60)
        (FinancialModelingEngine.generateDebtSchedule exInputs 60)).interestExpense t = 0 ∧
    (FinancialModelingEngine.generateIncomeStatement exInputs 60
        (FinancialModelingEngine.generateDepreciationSchedule exInputs 60)
        (FinancialModelingEngine.generateDebtSchedule exInputs 60)).netIncome t = 100000 := by
  have hie := (ex_debt_schedule t).1
  have hcogs : exInputs.costStructure.costOfGoodsSold.percentage = 0 := rfl
  have hcogsf : exInputs.costStructure.costOfGoodsSold.fixedCosts = 0 := rfl
  have hsm : exInputs.operatingExpenses.salesAndMarketing.percentage = 0 := rfl
  have hsmf : exInputs.operatingExpenses.salesAndMarketing.fixedCosts = 0 := rfl
  have hrd : exInputs.operatingExpenses.researchAndDevelopment.percentage = 0 := rfl
  have hrdf : exInputs.operatingExpenses.researchAndDevelopment.fixedCosts = 0 := rfl
  have hga : exInputs.operatingExpenses.generalAndAdministrative.percentage = 0 := rfl
  have hgaf : exInputs.operatingExpenses.generalAndAdministrative.fixedCosts = 0 := rfl
  have htax : exInputs.taxRate = 0 := rfl
  refine ⟨?_, ?_, ?_, ?_, ?_⟩ <;>
    simp [FinancialModelingEngine.generateIncomeStatement,
      FinancialModelingEngine.calculateCostOfGoodsSold,
      FinancialModelingEngine.calculateOperatingExpense,
      ex_revenue, hie, hcogs, hcogsf, hsm, hsmf, hrd, hrdf, hga, hgaf, htax]

/-- On `exInputs` every period's net cash flow is the full 100000 net
income. -/
theorem ex_net_cash_flow (t : ℕ) :
    (FinancialModelingEngine.generateCashFlowStatement exInputs 60
        (FinancialModelingEngine.generateIncomeStatement exInputs 60
          (FinancialModelingEngine.generateDepreciationSchedule exInputs 60)
          (FinancialModelingEngine.generateDebtSchedule exInputs 60))
        (FinancialModelingEngine.generateBalanceSheet exInputs 60
          (FinancialModelingEngine.generateIncomeStatement exInputs 60
            (FinancialModelingEngine.generateDepreciationSchedule exInputs 60)
            (FinancialModelingEngine.generateDebtSchedule exInputs 60))
          (FinancialModelingEngine.generateWorkingCapitalSchedule exInputs 60)
          (FinancialModelingEngine.generateDepreciationSchedule exInputs 60)
          (FinancialModelingEngine.generateDebtSchedule exInputs 60))
        (FinancialModelingEngine.generateDepreciationSchedule exInputs 60)
        (FinancialModelingEngine.generateDebtSchedule exInputs 60)
        (FinancialModelingEngine.generateWorkingCapitalSchedule exInputs 60)).netCashFlow t
      = 100000 := by
  have hni := (ex_income_statement t).2.2.2.2
  have hie := (ex_debt_schedule t).1
  have hpr := (ex_debt_schedule t).2.1
  have hnd := (ex_debt_schedule t).2.2.1
  have hdep := (ex_dep_schedule t).1
  have hadd := (ex_dep_schedule t).2.1
  have hwc := (ex_wc_schedule t).2.2.2
  simp [FinancialModelingEngine.generateCashFlowStatement,
    hni, hie, hpr, hnd, hdep, hadd, hwc]

/-- On `exInputs` the period-0 balance sheet: assets 50000 against
liabilities-plus-equity 100000. -/
theorem ex_balance_sheet_zero :
    (FinancialModelingEngine.generateBalanceSheet exInputs 60
        (FinancialModelingEngine.generateIncomeStatement exInputs 60
          (FinancialModelingEngine.generateDepreciationSchedule exInputs 60)
          (FinancialModelingEngine.generateDebtSchedule exInputs 60))
        (FinancialModelingEngine.generateWorkingCapitalSchedule exInputs 60)
        (FinancialModelingEngine.generateDepreciationSchedule exInputs 60)
        (FinancialModelingEngine.generateDebtSchedule exInputs 60)).totalAssets 0 = 50000 ∧
    (FinancialModelingEngine.generateBalanceSheet exInputs 60
        (FinancialModelingEngine.generateIncomeStatement exInputs 60
          (FinancialModelingEngine.generateDepreciationSchedule exInputs 60)
          (FinancialModelingEngine.generateDebtSchedule exInputs 60))
        (FinancialModelingEngine.generateWorkingCapitalSchedule exInputs 60)
        (FinancialModelingEngine.generateDepreciationSchedule exInputs 60)
        (FinancialModelingEngine.generateDebtSchedule exInputs 60)).totalLiabilities 0 = 0 ∧
    (FinancialModelingEngine.generateBalanceSheet exInputs 60
        (FinancialModelingEngine.generateIncomeStatement exInputs 60
          (FinancialModelingEngine.generateDepreciationSchedule exInputs 60)
          (FinancialModelingEngine.generateDebtSchedule exInputs 60))
        (FinancialModelingEngine.generateWorkingCapitalSchedule exInputs 60)
        (FinancialModelingEngine.generateDepreciationSchedule exInputs 60)
        (FinancialModelingEngine.generateDebtSchedule exInputs 60)).totalEquity 0 = 100000 := by
  have har := (ex_wc_schedule 0).1
  have hinv := (ex_wc_schedule 0).2.1
  have hap := (ex_wc_schedule 0).2.2.1
  have hfa := (ex_dep_schedule 0).2.2
  have hdep := (ex_dep_schedule 0).1
  have hde := (ex_debt_schedule 0).2.2.2
  have hni := (ex_income_statement 0).2.2.2.2
  have hdebt0 : exInputs.debtStructure.initialDebt = 0 := rfl
  refine ⟨?_, ?_, ?_⟩ <;>
    simp [FinancialModelingEngine.generateBalanceSheet,
      FinancialModelingEngine.calculateCashBalance,
      FinancialModelingEngine.calculateRetainedEarnings,
      Finset.sum_range_one, har, hinv, hap, hfa, hdep, hde, hni, hdebt0]

/-- C2: the accounting identity fails on the generated model — at the
concrete valid input `exInputs` the period-0 balance sheet has
`totalAssets = 50000` against `totalLiabilities + totalEquity = 100000`,
so `|totalAssets[0] - (totalLiabilities[0] + totalEquity[0])| = 50000`,
which exceeds any small tolerance ε. -/
theorem c2_accounting_identity_fails :
    |(FinancialModelingEngine.generateFinancialModel exInputs).balanceSheet.totalAssets 0
      - ((FinancialModelingEngine.generateFinancialModel exInputs).balanceSheet.totalLiabilities 0
        + (FinancialModelingEngine.generateFinancialModel exInputs).balanceSheet.totalEquity 0)|
      = 50000 := by
  obtain ⟨ha, hl, he⟩ := ex_balance_sheet_zero
  simp only [FinancialModelingEngine.generateFinancialModel, ha, hl, he]
  norm_num

/-- The average-growth computation on a 60-long constant positive series
is 0. -/
theorem avgGrowth_replicate_const :
    FinancialModelingEngine.calculateAverageGrowth
      (List.replicate 60 (100000 : ℚ)) = 0 := by
  rw [FinancialModelingEngine.calculateAverageGrowth]
  have hzip : (List.replicate 60 (100000 : ℚ)).zip (List.replicate 60 (100000 : ℚ)).tail
      = List.replicate 59 ((100000 : ℚ), (100000 : ℚ)) := by
    simp [List.zip_replicate]
  have hfm : (List.replicate 59 ((100000 : ℚ), (100000 : ℚ))).filterMap
      (fun p => if 0 < p.1 then some ((p.2 - p.1) / p.1) else none)
      = List.replicate 59 (0 : ℚ) :=
    filterMap_replicate_some _ _ _ (by norm_num) 59
  simp only [List.length_replicate, hzip, hfm]
  norm_num [List.sum_replicate]

/-- `generateAuditChecks` on statements with flat 100000 revenue, gross
profit, operating income and net cash flow and no interest expense: all
four checks pass. -/
theorem generateAuditChecks_flat_pass (inputs : FinancialInputs)
    (incomeStatement : IncomeStatement) (balanceSheet : BalanceSheet)
    (cashFlowStatement : CashFlowStatement)
    (hp : incomeStatement.periods = 60) (hcp : cashFlowStatement.periods = 60)
    (hrev : ∀ t, incomeStatement.revenue t = 100000)
    (hgp : ∀ t, incomeStatement.grossProfit t = 100000)
    (hoi : ∀ t, incomeStatement.operatingIncome t = 100000)
    (hie : ∀ t, incomeStatement.interestExpense t = 0)
    (hncf : ∀ t, cashFlowStatement.netCashFlow t = 100000) :
    (FinancialModelingEngine.generateAuditChecks inputs incomeStatement
        balanceSheet cashFlowStatement).map (fun c => (c.id, c.status))
      = [("revenue_growth", "pass"), ("gross_margin", "pass"),
         ("cash_flow", "pass"), ("interest_coverage", "pass")] := by
  have h1 : FinancialModelingEngine.calculateAverageGrowth
      ((List.range incomeStatement.periods).map incomeStatement.revenue) = 0 := by
    rw [hp, List.map_congr_left (fun i _ => hrev i), List.map_const',
      List.length_range, avgGrowth_replicate_const]
  have h2 : ((List.range incomeStatement.periods).map fun i =>
        incomeStatement.grossProfit i / incomeStatement.revenue i).sum
      / (incomeStatement.periods : ℚ) = 1 := by
    rw [hp, List.map_congr_left
      (fun i _ => by rw [hgp i, hrev i] : ∀ i ∈ List.range 60,
        incomeStatement.grossProfit i / incomeStatement.revenue i = 100000 / 100000)]
    norm_num [List.map_const', List.sum_replicate]
  have h3 : ((List.range cashFlowStatement.periods).filter fun i =>
        if cashFlowStatement.netCashFlow i < 0 then true else false).length = 0 := by
    rw [hcp, List.filter_eq_nil_iff.mpr fun i _ => by simp [hncf i]]
    rfl
  have h4 : ((List.range incomeStatement.periods).map fun i =>
        incomeStatement.operatingIncome i
          / max (incomeStatement.interestExpense i) 1).sum
      / (incomeStatement.periods : ℚ) = 100000 := by
    rw [hp, List.map_congr_left
      (fun i _ => by rw [hoi i, hie i] : ∀ i ∈ List.range 60,
        incomeStatement.operatingIncome i / max (incomeStatement.interestExpense i) 1
          = 100000 / max 0 1)]
    norm_num [List.map_const', List.sum_replicate]
  simp only [FinancialModelingEngine.generateAuditChecks, h1, h2, h3, h4,
    List.map]
  norm_num

/-- C7 (amended): the generated audit-check list is the fixed quadruple
revenue-growth, gross-margin, cash-flow, interest-coverage — it contains no
balance-sheet-identity check (in either engine; the template engine's
checks are moreover always `pass`), and, the checks being plain data on an
always-total generation path, a violated identity never aborts
generation. -/
theorem c7_no_balance_sheet_identity_check :
    (∀ (inputs : FinancialInputs) (incomeStatement : IncomeStatement)
        (balanceSheet : BalanceSheet) (cashFlowStatement : CashFlowStatement),
      (FinancialModelingEngine.generateAuditChecks inputs incomeStatement
          balanceSheet cashFlowStatement).map (fun c => c.id)
        = ["revenue_growth", "gross_margin", "cash_flow", "interest_coverage"]) ∧
    ∀ template : TemplateEngine.ModelTemplate,
      (TemplateEngine.generateAuditChecks template).all
        (fun c => c.status == "pass") = true := by
  constructor
  · intro inputs incomeStatement balanceSheet cashFlowStatement; rfl
  · intro template
    rw [TemplateEngine.generateAuditChecks]
    split
    · rfl
    · simp [List.all_eq_true]

/-- C7 (counterexample): on `exInputs` the balance-sheet identity is
violated by 50000 at period 0, yet every audit check of the generated
model passes and none of them is a balance-sheet-identity check — the
violation surfaces nowhere. -/
theorem c7_identity_violation_unflagged :
    |(FinancialModelingEngine.generateFinancialModel exInputs).balanceSheet.totalAssets 0
      - ((FinancialModelingEngine.generateFinancialModel exInputs).balanceSheet.totalLiabilities 0
        + (FinancialModelingEngine.generateFinancialModel exInputs).balanceSheet.totalEquity 0)|
      = 50000 ∧
    (FinancialModelingEngine.generateFinancialModel exInputs).auditChecks.map
        (fun c => (c.id, c.status))
      = [("revenue_growth", "pass"), ("gross_margin", "pass"),
         ("cash_flow", "pass"), ("interest_coverage", "pass")] := by
  constructor
  · obtain ⟨ha, hl, he⟩ := ex_balance_sheet_zero
    simp only [FinancialModelingEngine.generateFinancialModel, ha, hl, he]
    norm_num
  · simp only [FinancialModelingEngine.generateFinancialModel]
    exact generateAuditChecks_flat_pass exInputs _ _ _ rfl rfl
      (fun t => (ex_income_statement t).1)
      (fun t => (ex_income_statement t).2.1)
      (fun t => (ex_income_statement t).2.2.1)
      (fun t => (ex_income_statement t).2.2.2.1)
      ex_net_cash_flow

/-- C1 (witness): the first-failing-field characterization instantiated at
the `ecommerce` template with the empty input map. -/
theorem c1_validation_first_field_witness :
    TemplateEngine.processInputs TemplateEngine.ecommerceTemplate []
        = Except.error ("starting_customers", ["Starting Customers is required"]) ↔
      ∃ d, TemplateEngine.ecommerceTemplate.schema.inputs.find?
          (fun d => !(TemplateEngine.validateInput d
            (TemplateEngine.resolveValue [] d)).isEmpty) = some d
        ∧ ("starting_customers", ["Starting Customers is required"])
            = (d.id, TemplateEngine.validateInput d (TemplateEngine.resolveValue [] d)) :=
  c1_validation_reports_first_failing_field_only TemplateEngine.ecommerceTemplate []
    ("starting_customers", ["Starting Customers is required"])

/-- C7 (witness): the fixed audit-check id list instantiated at the
concrete generated model of `exInputs`. -/
theorem c7_fixed_check_ids_witness :
    (FinancialModelingEngine.generateAuditChecks exInputs
        (FinancialModelingEngine.generateFinancialModel exInputs).incomeStatement
        (FinancialModelingEngine.generateFinancialModel exInputs).balanceSheet
        (FinancialModelingEngine.generateFinancialModel exInputs).cashFlowStatement).map
        (fun c => c.id)
      = ["revenue_growth", "gross_margin", "cash_flow", "interest_coverage"] :=
  c7_no_balance_sheet_identity_check.1 exInputs _ _ _

end Finmod
